import Mathlib

/-!
Verification of the cross-marketplace publish/unpublish orchestration layer of
a skateboard-listing manager backend (`backend/server.py`,
`backend/ebay_config.py`, `backend/exchange_rates.py`).

The development is a shallow embedding: the Python functions are translated to
executable Lean functions.  Outbound HTTP traffic (the external marketplace
API, the taxonomy API, the FX feed) is abstracted into oracles/state machines
passed as explicit parameters; machine floats become `ℚ`; Python dicts become
association lists that keep insertion order (matching CPython dict semantics).
-/

namespace SkateBay

/-! ## Association-list helpers (Python `dict` with insertion order) -/

/-- `m.get(k)` on a Python dict, modelled as an insertion-ordered
association list. -/
def alookup {κ α : Type} [BEq κ] (m : List (κ × α)) (k : κ) : Option α :=
  (m.find? (fun p => p.1 == k)).map (fun p => p.2)

/-- `m[k] = v` on a Python dict: replace in place when the key exists
(keeping its position), append otherwise. -/
def aset {κ α : Type} [BEq κ] (m : List (κ × α)) (k : κ) (v : α) : List (κ × α) :=
  if (alookup m k).isSome then m.map (fun p => if p.1 == k then (k, v) else p)
  else m ++ [(k, v)]

/-- `del m[k]` on a Python dict (keys are unique in every dict we build). -/
def aerase {κ α : Type} [BEq κ] (m : List (κ × α)) (k : κ) : List (κ × α) :=
  m.filter (fun p => !(p.1 == k))

/-- `list(m.keys())`. -/
def akeys {κ α : Type} (m : List (κ × α)) : List κ := m.map (fun p => p.1)

/-- Python truthiness of an optional string (`None` and `""` are falsy). -/
def truthyOS : Option String → Bool
  | none => false
  | some s => !s.isEmpty

/-! ## Resilient API executor — `retry_with_backoff` (server.py 227-307)

The transport (httpx) is abstracted into an oracle `Nat → AttemptOutcome`
giving the outcome of each attempt (a response, or a raised
`httpx.TimeoutException`), and the jitter draws `random.random()` become an
explicit stream `rand : Nat → ℚ` (the draw used before retrying attempt `k`
is `rand k`, a value in `[0, 1)`). -/

/-- An HTTP response, reduced to the fields `retry_with_backoff` and its
callers inspect.  `retryAfter` is the numeric value of a parseable
`Retry-After` header (`none` when the header is absent or not a float, which
the source treats identically).  `listingId` is the `listingId` field of a
JSON body when present (listing ids are modelled as `Nat`). -/
structure HttpResp where
  status : Nat
  retryAfter : Option ℚ := none
  body : String := ""
  listingId : Option Nat := none
deriving Repr, DecidableEq

/-- Outcome of one HTTP attempt: a response, or a transport timeout. -/
inductive AttemptOutcome where
  | resp (r : HttpResp)
  | timeout
deriving Repr, DecidableEq

/-- `response.status_code == 429 or response.status_code >= 500`, plus
timeouts: the outcomes the executor retries on. -/
def isRetryable : AttemptOutcome → Bool
  | .timeout => true
  | .resp r => decide (r.status = 429 ∨ 500 ≤ r.status)

/-- `delay = max(0.5, delay + delay * 0.25 * (random.random() * 2 - 1))`:
±25% jitter on a base delay `d`, floored at 0.5 s. -/
def jitteredDelay (d : ℚ) (r : ℚ) : ℚ :=
  max (1/2) (d + d * (1/4) * (2 * r - 1))

/-- `base_delay * (2 ** (attempt - 1))`. -/
def backoffBase (baseDelay : ℚ) (attempt : Nat) : ℚ :=
  baseDelay * 2 ^ (attempt - 1)

/-- The delay slept before re-issuing after attempt `attempt`, exactly as in
the source: for a 429 a parseable `Retry-After` replaces the exponential
base, all other retryable outcomes use the exponential base; jitter and the
0.5 s floor are applied in every case. -/
def attemptDelay (baseDelay : ℚ) (attempt : Nat) (o : AttemptOutcome) (r : ℚ) : ℚ :=
  match o with
  | .timeout => jitteredDelay (backoffBase baseDelay attempt) r
  | .resp resp =>
    if resp.status = 429 then
      match resp.retryAfter with
      | some ra => jitteredDelay ra r
      | none => jitteredDelay (backoffBase baseDelay attempt) r
    else jitteredDelay (backoffBase baseDelay attempt) r

/-- Result of `retry_with_backoff`: the returned `(response, attempt)` pair
(`response = none` only on the dead-code `max_retries = 0` path), whether the
final timeout was re-raised, and the list of back-off sleeps performed. -/
structure RetryResult where
  response : Option HttpResp
  attempt : Nat
  raised : Bool
  sleeps : List ℚ
deriving Repr, DecidableEq

/-- The retry loop from attempt `attempt` on, with `remaining` further
attempts allowed after this one (the caller maintains
`remaining = max_retries - attempt`, so `attempt < max_retries` in the source
is exactly `remaining ≠ 0` here).  At the last attempt a retryable response
falls through to `return response, attempt` and a timeout is re-raised, as in
the source. -/
def retryGo (oracle : Nat → AttemptOutcome) (baseDelay : ℚ) (rand : Nat → ℚ)
    (attempt : Nat) : Nat → RetryResult
  | 0 =>
    match oracle attempt with
    | .timeout => ⟨none, attempt, true, []⟩
    | .resp r => ⟨some r, attempt, false, []⟩
  | remaining + 1 =>
    match oracle attempt with
    | .timeout =>
      let res := retryGo oracle baseDelay rand (attempt + 1) remaining
      { res with
        sleeps := attemptDelay baseDelay attempt .timeout (rand attempt) :: res.sleeps }
    | .resp r =>
      if r.status = 429 ∨ 500 ≤ r.status then
        let res := retryGo oracle baseDelay rand (attempt + 1) remaining
        { res with
          sleeps := attemptDelay baseDelay attempt (.resp r) (rand attempt) :: res.sleeps }
      else ⟨some r, attempt, false, []⟩

/-- `retry_with_backoff` (server.py 227-307).  With `max_retries = 0` the
`for` loop body never runs and the trailing `return last_response,
max_retries` returns `(None, 0)`. -/
def retry_with_backoff (oracle : Nat → AttemptOutcome) (max_retries : Nat)
    (base_delay : ℚ) (rand : Nat → ℚ) : RetryResult :=
  match max_retries with
  | 0 => ⟨none, 0, false, []⟩
  | n + 1 => retryGo oracle base_delay rand 1 n

/-- The delay slept after attempt `j` of a run driven by `oracle`. -/
def stepDelay (oracle : Nat → AttemptOutcome) (baseDelay : ℚ) (rand : Nat → ℚ)
    (j : Nat) : ℚ :=
  attemptDelay baseDelay j (oracle j) (rand j)

lemma retryGo_nonretryable (oracle : Nat → AttemptOutcome) (baseDelay : ℚ)
    (rand : Nat → ℚ) (attempt remaining : Nat) (r : HttpResp)
    (hor : oracle attempt = .resp r) (hnr : ¬(r.status = 429 ∨ 500 ≤ r.status)) :
    retryGo oracle baseDelay rand attempt remaining = ⟨some r, attempt, false, []⟩ := by
  cases remaining <;> simp [retryGo, hor, hnr]

lemma retryGo_retryable (oracle : Nat → AttemptOutcome) (baseDelay : ℚ)
    (rand : Nat → ℚ) (attempt remaining : Nat)
    (hret : isRetryable (oracle attempt) = true) :
    retryGo oracle baseDelay rand attempt (remaining + 1) =
      (let res := retryGo oracle baseDelay rand (attempt + 1) remaining
       { res with
         sleeps := stepDelay oracle baseDelay rand attempt :: res.sleeps }) := by
  cases h : oracle attempt with
  | timeout => simp [retryGo, h, stepDelay]
  | resp r =>
    have hc : r.status = 429 ∨ 500 ≤ r.status := by
      have := hret
      rw [h] at this
      simpa [isRetryable] using this
    simp [retryGo, h, hc, stepDelay]

lemma retryGo_skip (oracle : Nat → AttemptOutcome) (baseDelay : ℚ) (rand : Nat → ℚ) :
    ∀ (k attempt remaining : Nat), k ≤ remaining →
    (∀ j, attempt ≤ j → j < attempt + k → isRetryable (oracle j) = true) →
    retryGo oracle baseDelay rand attempt remaining =
      (let res := retryGo oracle baseDelay rand (attempt + k) (remaining - k)
       { res with
         sleeps := (List.range' attempt k).map (stepDelay oracle baseDelay rand)
           ++ res.sleeps }) := by
  intro k
  induction k with
  | zero => intro attempt remaining _ _; simp
  | succ k ih =>
    intro attempt remaining hk hpre
    obtain ⟨rem, rfl⟩ : ∃ rem, remaining = rem + 1 :=
      ⟨remaining - 1, by omega⟩
    rw [retryGo_retryable oracle baseDelay rand attempt rem
      (hpre attempt le_rfl (by omega))]
    rw [ih (attempt + 1) rem (by omega)
      (fun j h1 h2 => hpre j (by omega) (by omega))]
    simp only [List.range'_succ, List.map_cons, List.cons_append]
    have harith : attempt + 1 + k = attempt + (k + 1) := by omega
    have hrem : rem - k = rem + 1 - (k + 1) := by omega
    rw [harith, hrem]

/-- **C4.** For every run of the resilient executor, attempts continue past an
outcome only when it is a 429 response, a ≥500 response, or a transport
timeout; hence if the outcomes of attempts `1 .. k-1` are all retryable then:
a non-retryable response at attempt `k` is returned immediately together with
the attempt number `k`; if `k = maxRetries`, whatever response attempt `k`
produced is returned as the last response; and a timeout at the final attempt
is re-raised (no response is returned). -/
theorem retry_classifies_and_returns_last
    (oracle : Nat → AttemptOutcome) (maxRetries : Nat) (baseDelay : ℚ)
    (rand : Nat → ℚ) (k : Nat)
    (hk1 : 1 ≤ k) (hk : k ≤ maxRetries)
    (hpre : ∀ j, 1 ≤ j → j < k → isRetryable (oracle j) = true) :
    (∀ r : HttpResp, oracle k = .resp r → ¬(r.status = 429 ∨ 500 ≤ r.status) →
      (retry_with_backoff oracle maxRetries baseDelay rand).response = some r ∧
      (retry_with_backoff oracle maxRetries baseDelay rand).attempt = k ∧
      (retry_with_backoff oracle maxRetries baseDelay rand).raised = false) ∧
    (k = maxRetries → ∀ r : HttpResp, oracle k = .resp r →
      (retry_with_backoff oracle maxRetries baseDelay rand).response = some r ∧
      (retry_with_backoff oracle maxRetries baseDelay rand).attempt = k ∧
      (retry_with_backoff oracle maxRetries baseDelay rand).raised = false) ∧
    (k = maxRetries → oracle k = .timeout →
      (retry_with_backoff oracle maxRetries baseDelay rand).response = none ∧
      (retry_with_backoff oracle maxRetries baseDelay rand).raised = true) := by
  obtain ⟨n, rfl⟩ : ∃ n, maxRetries = n + 1 := ⟨maxRetries - 1, by omega⟩
  have hrun : retry_with_backoff oracle (n + 1) baseDelay rand =
      (let res := retryGo oracle baseDelay rand (1 + (k - 1)) (n - (k - 1))
       { res with
         sleeps := (List.range' 1 (k - 1)).map (stepDelay oracle baseDelay rand)
           ++ res.sleeps }) := by
    show retryGo oracle baseDelay rand 1 n = _
    exact retryGo_skip oracle baseDelay rand (k - 1) 1 n (by omega)
      (fun j h1 h2 => hpre j h1 (by omega))
  have hatt : 1 + (k - 1) = k := by omega
  rw [hatt] at hrun
  refine ⟨?_, ?_, ?_⟩
  · intro r hor hnr
    rw [hrun, retryGo_nonretryable oracle baseDelay rand k _ r hor hnr]
    simp
  · intro hkm r hor
    have hrem : n - (k - 1) = 0 := by omega
    rw [hrun, hrem]
    simp [retryGo, hor]
  · intro hkm hor
    have hrem : n - (k - 1) = 0 := by omega
    rw [hrun, hrem]
    simp [retryGo, hor]

/-- Witness for `retry_classifies_and_returns_last`: a 503 on attempt 1
followed by a 201 on attempt 2 returns the 201 immediately at attempt 2. -/
theorem retry_classifies_witness :
    (retry_with_backoff
        (fun j => if j = 1 then .resp ⟨503, none, "", none⟩
                  else .resp ⟨201, none, "", none⟩)
        3 1 (fun _ => 1/2)).response = some ⟨201, none, "", none⟩ ∧
    (retry_with_backoff
        (fun j => if j = 1 then .resp ⟨503, none, "", none⟩
                  else .resp ⟨201, none, "", none⟩)
        3 1 (fun _ => 1/2)).attempt = 2 := by
  have h := retry_classifies_and_returns_last
    (fun j => if j = 1 then .resp ⟨503, none, "", none⟩
              else .resp ⟨201, none, "", none⟩)
    3 1 (fun _ => 1/2) 2 (by decide) (by decide)
    (by intro j h1 h2
        have : j = 1 := by omega
        subst this
        decide)
  have h2 := h.1 ⟨201, none, "", none⟩ (by decide) (by decide)
  exact ⟨h2.1, h2.2.1⟩

/-! ### C5 — the Retry-After delay

The source computes `delay = float(retry_after)` for a 429 carrying a numeric
`Retry-After`, but then still applies the ±25% jitter and the 0.5 s floor to
it, so the slept delay generally differs from the header value. -/

/-- **C5 (counterexample).** A 429 response with `Retry-After: 10` and jitter
draw `3/4` sleeps `11.25` s, not the header value `10`: the claim that the
delay equals the header value is false (`3/4` is a legal `random.random()`
outcome). -/
theorem retryAfter_delay_not_header_value :
    (retry_with_backoff (fun _ => .resp ⟨429, some 10, "", none⟩)
        2 1 (fun _ => 3/4)).sleeps = [45/4] ∧
    ((45 : ℚ)/4 ≠ 10 ∧ (0 : ℚ) ≤ 3/4 ∧ (3 : ℚ)/4 < 1) := by
  refine ⟨?_, by norm_num, by norm_num, by norm_num⟩
  simp [retry_with_backoff, retryGo, attemptDelay, jitteredDelay, backoffBase]
  rw [max_eq_right (by norm_num)]
  norm_num

/-- **C5 (amended).** For every attempt `k` at which the executor retries a
429 response carrying a numeric `Retry-After` value `ra`, the slept delay is
`max 0.5 (ra + ra * 0.25 * (2 * rand k - 1))`: the header value replaces the
computed exponential-backoff base (it takes priority over it), but the ±25%
jitter and the 0.5 s floor still apply on top of it. -/
theorem retryAfter_priority_with_jitter
    (oracle : Nat → AttemptOutcome) (maxRetries : Nat) (baseDelay : ℚ)
    (rand : Nat → ℚ) (k : Nat) (r : HttpResp) (ra : ℚ)
    (hk1 : 1 ≤ k) (hk : k < maxRetries)
    (hpre : ∀ j, 1 ≤ j → j < k → isRetryable (oracle j) = true)
    (hor : oracle k = .resp r) (h429 : r.status = 429)
    (hra : r.retryAfter = some ra) :
    (retry_with_backoff oracle maxRetries baseDelay rand).sleeps[k - 1]? =
      some (max (1/2) (ra + ra * (1/4) * (2 * rand k - 1))) := by
  obtain ⟨n, rfl⟩ : ∃ n, maxRetries = n + 1 := ⟨maxRetries - 1, by omega⟩
  have hret : isRetryable (oracle k) = true := by
    rw [hor]; simp [isRetryable, h429]
  have hrun : retry_with_backoff oracle (n + 1) baseDelay rand =
      (let res := retryGo oracle baseDelay rand (1 + (k - 1)) (n - (k - 1))
       { res with
         sleeps := (List.range' 1 (k - 1)).map (stepDelay oracle baseDelay rand)
           ++ res.sleeps }) := by
    show retryGo oracle baseDelay rand 1 n = _
    exact retryGo_skip oracle baseDelay rand (k - 1) 1 n (by omega)
      (fun j h1 h2 => hpre j h1 (by omega))
  have hatt : 1 + (k - 1) = k := by omega
  rw [hatt] at hrun
  obtain ⟨rem, hrem⟩ : ∃ rem, n - (k - 1) = rem + 1 :=
    ⟨n - (k - 1) - 1, by omega⟩
  rw [hrem] at hrun
  rw [hrun]
  simp only [retryGo_retryable oracle baseDelay rand k rem hret]
  have hlen : ((List.range' 1 (k - 1)).map
      (stepDelay oracle baseDelay rand)).length = k - 1 := by
    simp
  rw [List.getElem?_append_right (by omega)]
  rw [hlen]
  simp only [Nat.sub_self]
  simp [stepDelay, attemptDelay, hor, h429, hra, jitteredDelay]

/-- Witness for `retryAfter_priority_with_jitter`: attempt 1 retries a 429
with `Retry-After: 10` under jitter draw `3/4`, sleeping `11.25` s. -/
theorem retryAfter_priority_witness :
    (retry_with_backoff (fun _ => .resp ⟨429, some 10, "", none⟩)
        2 1 (fun _ => 3/4)).sleeps[0]? = some (45/4) := by
  have h := retryAfter_priority_with_jitter
    (fun _ => .resp ⟨429, some 10, "", none⟩) 2 1 (fun _ => 3/4)
    1 ⟨429, some 10, "", none⟩ 10 (by decide) (by decide)
    (by intro j h1 h2; omega) rfl rfl rfl
  have : max ((1 : ℚ)/2) (10 + 10 * (1/4) * (2 * (3/4) - 1)) = 45/4 := by
    norm_num
  rw [this] at h
  exact h

/-! ### C6 — backoff bounds for a 429 without Retry-After

The computed delay is `max 0.5 (d + d * 0.25 * (2r - 1))` with
`d = baseDelay * 2^(k-1)`, so it lies in `[0.75 d, 1.25 d]` only when that
interval's upper end is at least the 0.5 s floor (`d ≥ 0.4`) — true at both
call sites (`base_delay` 1.0 by default and 2.0 at the publish call), but not
for arbitrary small `baseDelay`. -/

/-- **C6 (counterexample).** With `baseDelay = 0.1`, attempt 1 of a 429
without `Retry-After` sleeps the floor value 0.5 s, which exceeds the claimed
interval's upper end `1.25 * 0.1 * 2^0 = 0.125`: the claim's conjunction
fails for small base delays. -/
theorem backoff_bounds_floor_counterexample :
    (retry_with_backoff (fun _ => .resp ⟨429, none, "", none⟩)
        2 (1/10) (fun _ => 1/2)).sleeps = [1/2] ∧
    ¬((1 : ℚ)/2 ≤ 5/4 * ((1/10) * 2 ^ (1 - 1))) := by
  refine ⟨?_, by norm_num⟩
  simp [retry_with_backoff, retryGo, attemptDelay, jitteredDelay, backoffBase]
  norm_num

/-- **C6 (amended).** For every attempt `k` at which the executor retries a
429 response with no `Retry-After` header, and every jitter draw in `[0,1)`,
the slept delay is at least 0.5 s; and whenever
`0.4 ≤ baseDelay * 2^(k-1)` (satisfied at every call site: `base_delay` is
2.0 at the publish call and 1.0 by default) it also lies within
`[0.75 * baseDelay * 2^(k-1), 1.25 * baseDelay * 2^(k-1)]`. -/
theorem backoff_bounds_429
    (oracle : Nat → AttemptOutcome) (maxRetries : Nat) (baseDelay : ℚ)
    (rand : Nat → ℚ) (k : Nat) (r : HttpResp)
    (hk1 : 1 ≤ k) (hk : k < maxRetries)
    (hpre : ∀ j, 1 ≤ j → j < k → isRetryable (oracle j) = true)
    (hor : oracle k = .resp r) (h429 : r.status = 429)
    (hra : r.retryAfter = none)
    (hr0 : 0 ≤ rand k) (hr1 : rand k ≤ 1)
    (hbase : (2 : ℚ)/5 ≤ baseDelay * 2 ^ (k - 1)) :
    ∃ d, (retry_with_backoff oracle maxRetries baseDelay rand).sleeps[k - 1]? = some d ∧
      (1 : ℚ)/2 ≤ d ∧
      3/4 * (baseDelay * 2 ^ (k - 1)) ≤ d ∧
      d ≤ 5/4 * (baseDelay * 2 ^ (k - 1)) := by
  obtain ⟨n, rfl⟩ : ∃ n, maxRetries = n + 1 := ⟨maxRetries - 1, by omega⟩
  have hret : isRetryable (oracle k) = true := by
    rw [hor]; simp [isRetryable, h429]
  have hrun : retry_with_backoff oracle (n + 1) baseDelay rand =
      (let res := retryGo oracle baseDelay rand (1 + (k - 1)) (n - (k - 1))
       { res with
         sleeps := (List.range' 1 (k - 1)).map (stepDelay oracle baseDelay rand)
           ++ res.sleeps }) := by
    show retryGo oracle baseDelay rand 1 n = _
    exact retryGo_skip oracle baseDelay rand (k - 1) 1 n (by omega)
      (fun j h1 h2 => hpre j h1 (by omega))
  have hatt : 1 + (k - 1) = k := by omega
  rw [hatt] at hrun
  obtain ⟨rem, hrem⟩ : ∃ rem, n - (k - 1) = rem + 1 :=
    ⟨n - (k - 1) - 1, by omega⟩
  rw [hrem] at hrun
  set D : ℚ := baseDelay * 2 ^ (k - 1) with hD
  refine ⟨max (1/2) (D + D * (1/4) * (2 * rand k - 1)), ?_, ?_, ?_, ?_⟩
  · rw [hrun]
    simp only [retryGo_retryable oracle baseDelay rand k rem hret]
    have hlen : ((List.range' 1 (k - 1)).map
        (stepDelay oracle baseDelay rand)).length = k - 1 := by
      simp
    rw [List.getElem?_append_right (by omega)]
    rw [hlen]
    simp only [Nat.sub_self]
    simp [stepDelay, attemptDelay, hor, h429, hra, jitteredDelay,
      backoffBase, hD]
  · exact le_max_left _ _
  · have hlow : 3/4 * D ≤ D + D * (1/4) * (2 * rand k - 1) := by
      have hD0 : (0 : ℚ) ≤ D := le_trans (by norm_num) hbase
      nlinarith
    exact le_trans hlow (le_max_right _ _)
  · have hD0 : (0 : ℚ) ≤ D := le_trans (by norm_num) hbase
    have hup : D + D * (1/4) * (2 * rand k - 1) ≤ 5/4 * D := by nlinarith
    have hhalf : (1 : ℚ)/2 ≤ 5/4 * D := by nlinarith
    exact max_le hhalf hup

/-- Witness for `backoff_bounds_429`: default `baseDelay = 1`, attempt 1,
jitter draw `3/4` → the delay `9/8` is at least 0.5 and inside
`[3/4, 5/4]`. -/
theorem backoff_bounds_witness :
    ∃ d, (retry_with_backoff (fun _ => .resp ⟨429, none, "", none⟩)
        2 1 (fun _ => 3/4)).sleeps[0]? = some d ∧
      (1 : ℚ)/2 ≤ d ∧
      3/4 * ((1 : ℚ) * 2 ^ (1 - 1)) ≤ d ∧
      d ≤ 5/4 * ((1 : ℚ) * 2 ^ (1 - 1)) := by
  exact backoff_bounds_429 (fun _ => .resp ⟨429, none, "", none⟩) 2 1
    (fun _ => 3/4) 1 ⟨429, none, "", none⟩ (by decide) (by decide)
    (by intro j h1 h2; omega) rfl rfl rfl (by norm_num) (by norm_num)
    (by norm_num)

/-! ## Currency conversion — `convert_currency` (exchange_rates.py 79-112) -/

/-- `convert_currency(amount, from_currency, to_currency, rates)`: EUR-pivot
conversion; a currency missing from `rates` defaults to rate `1.0`
(`rates.get(c, 1.0)`). -/
def convert_currency (amount : ℚ) (from_currency to_currency : String)
    (rates : List (String × ℚ)) : ℚ :=
  if from_currency = to_currency then amount
  else
    let from_rate := (alookup rates from_currency).getD 1
    let to_rate := (alookup rates to_currency).getD 1
    if from_currency = "EUR" then amount * to_rate
    else if to_currency = "EUR" then amount / from_rate
    else amount / from_rate * to_rate

/-- **C7.** For every amount `X` and currencies `A`, `B` present in the rates
snapshot with non-zero rates, converting `X` from `A` to `B` and back yields
exactly `X` (in the exact arithmetic of `ℚ`): the EUR-pivot scheme — multiply
when converting from EUR, divide when converting to EUR, divide-then-multiply
otherwise — is an exact round-trip. -/
theorem convert_currency_round_trip (X : ℚ) (A B : String)
    (rates : List (String × ℚ)) (ra rb : ℚ)
    (ha : alookup rates A = some ra) (hb : alookup rates B = some rb)
    (hra : ra ≠ 0) (hrb : rb ≠ 0) :
    convert_currency (convert_currency X A B rates) B A rates = X := by
  by_cases hAB : A = B
  · subst hAB
    simp [convert_currency]
  · have hBA : ¬ B = A := fun h => hAB h.symm
    by_cases hA : A = "EUR"
    · have hB : ¬ B = "EUR" := fun h => hAB (hA.trans h.symm)
      simp only [convert_currency, if_neg hAB, if_neg hBA, if_pos hA, if_neg hB,
        ha, hb, Option.getD_some]
      field_simp
    · by_cases hB : B = "EUR"
      · simp only [convert_currency, if_neg hAB, if_neg hBA, if_neg hA, if_pos hB,
          ha, hb, Option.getD_some]
        field_simp
      · simp only [convert_currency, if_neg hAB, if_neg hBA, if_neg hA, if_neg hB,
          ha, hb, Option.getD_some]
        field_simp
        ring

/-- Witness for `convert_currency_round_trip` on the hardcoded fallback
rates: 50 USD → GBP → USD round-trips exactly. -/
theorem convert_currency_round_trip_witness :
    convert_currency
      (convert_currency 50 "USD" "GBP" [("USD", 27/25), ("AUD", 33/20), ("GBP", 17/20)])
      "GBP" "USD" [("USD", 27/25), ("AUD", 33/20), ("GBP", 17/20)] = 50 := by
  exact convert_currency_round_trip 50 "USD" "GBP"
    [("USD", 27/25), ("AUD", 33/20), ("GBP", 17/20)] (27/25) (17/20)
    (by simp [alookup, List.find?]) (by simp [alookup, List.find?])
    (by norm_num) (by norm_num)

/-! ## Marketplace configuration — `ebay_config.py`

The static `MARKETPLACE_CONFIG` table, the settings overlay
(`get_marketplace_config`) and publish-readiness validation
(`validate_marketplace_for_publish`, aliased `validate_marketplace_config` in
`server.py`).  The duplicate `shipping_rate` dict key (same value as the
standard shipping cost, never overridden and not read by any claimed code
path) is not carried. -/

/-- The nested `policies` dict of a marketplace config. -/
structure Policies where
  fulfillment_policy_id : Option String := none
  payment_policy_id : Option String := none
  return_policy_id : Option String := none
deriving Repr, DecidableEq

/-- The nested `shipping_standard` dict of a marketplace config. -/
structure ShippingStandard where
  cost_value : String := ""
  cost_currency : String := ""
  handling_time_days : Nat := 3
  shipping_service_code : Option String := none
deriving Repr, DecidableEq

/-- One entry of `MARKETPLACE_CONFIG`, possibly overlaid with settings. -/
structure MpConfig where
  name : String
  site_id : String
  currency : String
  country_code : String
  language : String
  price_value : ℚ
  price_currency : String
  shipping_standard : ShippingStandard
  policies : Policies := {}
  merchant_location_key : Option String := none
deriving Repr, DecidableEq

/-- `SHIPPING_RATES` (ebay_config.py): Europe / USA+Canada / rest of world,
all denominated in USD. -/
def SHIPPING_RATES : List (String × ShippingStandard) :=
  [("EUROPE", { cost_value := "10.00", cost_currency := "USD" }),
   ("USA_CANADA", { cost_value := "25.00", cost_currency := "USD" }),
   ("REST_OF_WORLD", { cost_value := "45.00", cost_currency := "USD" })]

/-- `MARKETPLACE_CONFIG` (ebay_config.py): the four configured marketplaces
with their defaults; all policy ids and location keys default to `None`. -/
def MARKETPLACE_CONFIG : List (String × MpConfig) :=
  [("EBAY_US",
    { name := "United States", site_id := "0", currency := "USD",
      country_code := "US", language := "en-US",
      price_value := 50, price_currency := "USD",
      shipping_standard := { cost_value := "25.00", cost_currency := "USD" } }),
   ("EBAY_DE",
    { name := "Germany", site_id := "77", currency := "EUR",
      country_code := "DE", language := "de-DE",
      price_value := 45, price_currency := "EUR",
      shipping_standard := { cost_value := "10.00", cost_currency := "USD" } }),
   ("EBAY_ES",
    { name := "Spain", site_id := "186", currency := "EUR",
      country_code := "ES", language := "es-ES",
      price_value := 45, price_currency := "EUR",
      shipping_standard := { cost_value := "10.00", cost_currency := "USD" } }),
   ("EBAY_AU",
    { name := "Australia", site_id := "15", currency := "AUD",
      country_code := "AU", language := "en-AU",
      price_value := 80, price_currency := "AUD",
      shipping_standard := { cost_value := "45.00", cost_currency := "USD" } })]

/-- A settings override for the `policies` sub-dict.  The outer `Option` is
"key present in the override dict" (`dict.update` copies present keys even
when their value is `None`, hence the inner `Option String`). -/
structure PoliciesOverride where
  fulfillment_policy_id : Option (Option String) := none
  payment_policy_id : Option (Option String) := none
  return_policy_id : Option (Option String) := none
deriving Repr, DecidableEq

/-- A settings override for the `shipping_standard` sub-dict (`dict.update`
semantics per key; `cost` is replaced as a whole value/currency pair). -/
structure ShippingOverride where
  cost : Option (String × String) := none
  handling_time_days : Option Nat := none
  shipping_service_code : Option (Option String) := none
deriving Repr, DecidableEq

/-- A per-marketplace settings override document
(`db_settings["marketplaces"][mp]`): nested `price` / `shipping_standard` /
`policies` blocks plus the flat legacy policy-id fields and the merchant
location key. -/
structure MpOverride where
  price : Option (ℚ × String) := none
  shipping_standard : Option ShippingOverride := none
  policies : Option PoliciesOverride := none
  fulfillment_policy_id : Option String := none
  payment_policy_id : Option String := none
  return_policy_id : Option String := none
  merchant_location_key : Option String := none
deriving Repr, DecidableEq

/-- The persisted settings document (only its `marketplaces` sub-dict is read
by the claimed code paths). -/
structure Settings where
  marketplaces : List (String × MpOverride) := []
deriving Repr, DecidableEq

/-- `config["shipping_standard"].update(mp_settings["shipping_standard"])`. -/
def applyShippingOverride (s : ShippingStandard) (u : ShippingOverride) :
    ShippingStandard :=
  { cost_value := (u.cost.map Prod.fst).getD s.cost_value,
    cost_currency := (u.cost.map Prod.snd).getD s.cost_currency,
    handling_time_days := u.handling_time_days.getD s.handling_time_days,
    shipping_service_code := u.shipping_service_code.getD s.shipping_service_code }

/-- `config["policies"].update(mp_settings["policies"])`. -/
def applyPoliciesOverride (p : Policies) (u : PoliciesOverride) : Policies :=
  { fulfillment_policy_id := u.fulfillment_policy_id.getD p.fulfillment_policy_id,
    payment_policy_id := u.payment_policy_id.getD p.payment_policy_id,
    return_policy_id := u.return_policy_id.getD p.return_policy_id }

/-- `get_marketplace_config(marketplace_id, db_settings)` (ebay_config.py
164-204): static defaults, overlaid in order with the price block, the
shipping block, the nested policies block, the truthy flat legacy policy
fields, and a truthy merchant location key.  Unknown marketplace → `None`. -/
def get_marketplace_config (marketplace_id : String) (settings : Settings) :
    Option MpConfig :=
  match alookup MARKETPLACE_CONFIG marketplace_id with
  | none => none
  | some config0 =>
    match alookup settings.marketplaces marketplace_id with
    | none => some config0
    | some ov =>
      let c1 := match ov.price with
        | some p => { config0 with price_value := p.1, price_currency := p.2 }
        | none => config0
      let c2 := match ov.shipping_standard with
        | some u =>
          { c1 with shipping_standard := applyShippingOverride c1.shipping_standard u }
        | none => c1
      let c3 := match ov.policies with
        | some u => { c2 with policies := applyPoliciesOverride c2.policies u }
        | none => c2
      let c4 := { c3 with policies :=
        { fulfillment_policy_id :=
            if truthyOS ov.fulfillment_policy_id then ov.fulfillment_policy_id
            else c3.policies.fulfillment_policy_id,
          payment_policy_id :=
            if truthyOS ov.payment_policy_id then ov.payment_policy_id
            else c3.policies.payment_policy_id,
          return_policy_id :=
            if truthyOS ov.return_policy_id then ov.return_policy_id
            else c3.policies.return_policy_id } }
      let c5 := if truthyOS ov.merchant_location_key then
          { c4 with merchant_location_key := ov.merchant_location_key }
        else c4
      some c5

/-- `CATEGORY_BY_ITEM_TYPE` (ebay_config.py). -/
def CATEGORY_BY_ITEM_TYPE : List (String × List (String × String)) :=
  [("WHL", [("EBAY_US", "159043"), ("EBAY_DE", "159043"), ("EBAY_ES", "159043"),
            ("EBAY_AU", "36632"), ("EBAY_IT", "159043"), ("EBAY_UK", "159043")]),
   ("TRK", [("EBAY_US", "159043"), ("EBAY_DE", "159043"), ("EBAY_ES", "159043"),
            ("EBAY_AU", "36631"), ("EBAY_IT", "159043"), ("EBAY_UK", "159043")]),
   ("DCK", [("EBAY_US", "159043"), ("EBAY_DE", "159043"), ("EBAY_ES", "159043"),
            ("EBAY_AU", "16263"), ("EBAY_IT", "159043"), ("EBAY_UK", "159043")]),
   ("APP", [("EBAY_US", "159043"), ("EBAY_DE", "159043"), ("EBAY_ES", "159043"),
            ("EBAY_AU", "36642"), ("EBAY_IT", "159043"), ("EBAY_UK", "159043")]),
   ("MISC", [("EBAY_US", "159043"), ("EBAY_DE", "159043"), ("EBAY_ES", "159043"),
             ("EBAY_AU", "159043"), ("EBAY_IT", "159043"), ("EBAY_UK", "159043")])]

/-- `get_category_for_item(item_type, marketplace_id)` with its `"16265"`
universal fallback. -/
def get_category_for_item (item_type marketplace_id : String) : String :=
  (alookup ((alookup CATEGORY_BY_ITEM_TYPE item_type).getD []) marketplace_id).getD
    "16265"

/-- `validate_marketplace_for_publish(marketplace_id, config)` (ebay_config.py
212-232): the list of missing publish-critical fields (Python truthiness, so
`None` and `""` both count as missing). -/
def validate_marketplace_for_publish (marketplace_id : String)
    (config : Option MpConfig) : List String :=
  match config with
  | none => ["Unknown marketplace: " ++ marketplace_id]
  | some c =>
    (if truthyOS c.policies.fulfillment_policy_id then []
     else ["fulfillment_policy_id for " ++ marketplace_id]) ++
    (if truthyOS c.policies.payment_policy_id then []
     else ["payment_policy_id for " ++ marketplace_id]) ++
    (if truthyOS c.policies.return_policy_id then []
     else ["return_policy_id for " ++ marketplace_id]) ++
    (if truthyOS c.merchant_location_key then []
     else ["merchant_location_key for " ++ marketplace_id])

/-! ## Data model: drafts, remote marketplace state, call traces

Offer ids and listing ids are opaque strings assigned by the remote API; the
model represents them as `Nat` drawn from per-remote counters.  Outbound
calls are recorded in a trace so that "no network call" claims can be
stated. -/

/-- One outbound API call, as recorded in the model's trace. -/
inductive CallEv where
  | inventoryPut (sku marketplace_id : String)
  | locationGet (key : String)
  | locationPost (key : String)
  | taxonomyGet (marketplace_id query : String)
  | offersGet (sku marketplace_id : String)
  | offerDelete (offerId : Nat)
  | offerUpdate (offerId : Nat) (categoryId : String)
  | offerCreate (sku marketplace_id categoryId : String)
  | offerPublish (offerId : Nat) (attempts : Nat)
  | offerWithdraw (offerId : Nat)
  | inventoryDelete (sku : String)
  | offersListBySku (sku : String)
deriving Repr, DecidableEq

/-- An offer held by the remote marketplace API: tied to one SKU and one
marketplace; `listingId` is set exactly when the offer is published (an
offer "in a published state carries a live listing id"). -/
structure RemoteOffer where
  sku : String
  marketplaceId : String
  offerId : Nat
  listingId : Option Nat := none
deriving Repr, DecidableEq

/-- The state of the remote marketplace API: the offers in existence, the
merchant locations that exist, and fresh-id counters. -/
structure Remote where
  offers : List RemoteOffer := []
  locations : List String := []
  nextOfferId : Nat := 0
  nextListingId : Nat := 0
deriving Repr, DecidableEq

/-- One per-marketplace result dict as built by the publish orchestrator.
Fields that a given branch of the source does not put into the dict are
`none`/`false` (`dict.get` on them is falsy either way, which is all the
source ever checks). -/
structure MpResult where
  success : Bool := false
  offer_id : Option Nat := none
  listing_id : Option Nat := none
  price : Option (ℚ × String) := none
  listing_url : Option String := none
  error : Option String := none
  note : Option String := none
  retries : Option Nat := none
deriving Repr, DecidableEq

/-- One `marketplace_listings` entry: `{sku, offer_id, listing_id,
listing_url}`. -/
structure MpListing where
  sku : String
  offer_id : Option Nat := none
  listing_id : Option Nat := none
  listing_url : Option String := none
deriving Repr, DecidableEq

/-- A draft record, restricted to the fields read or written by the claimed
code paths.  A missing title is modelled as `""` (Python truthiness treats
both identically in every claimed path). -/
structure Draft where
  id : String := ""
  title : String := ""
  description : String := ""
  image_urls : List String := []
  sku : String := ""
  item_type : String := "MISC"
  price : Option ℚ := none
  category_by_marketplace : List (String × String) := []
  multi_marketplace_results : List (String × MpResult) := []
  marketplace_listings : List (String × MpListing) := []
  status : String := "DRAFT"
  listing_id : Option Nat := none
  offer_id : Option Nat := none
deriving Repr, DecidableEq

/-- `get_marketplace_domain` — imported by `server.py` from `ebay_config` but
absent from the `ebay_config.py` under `src/`.  Modelled from the spec: "a
storefront URL is built using environment (sandbox/production) and
marketplace domain"; the listed marketplaces map to their regional eBay
domains, everything else to the US domain. -/
def get_marketplace_domain (marketplace_id : String) : String :=
  (alookup
    [("EBAY_US", "ebay.com"), ("EBAY_DE", "ebay.de"), ("EBAY_ES", "ebay.es"),
     ("EBAY_AU", "ebay.com.au"), ("EBAY_IT", "ebay.it"),
     ("EBAY_UK", "ebay.co.uk")]
    marketplace_id).getD "ebay.com"

/-- `f"https://www.{sandbox_part}{mp_domain}/itm/{listing_id}"`. -/
def listingUrl (use_sandbox : Bool) (marketplace_id : String)
    (listing_id : Nat) : String :=
  "https://www." ++ (if use_sandbox then "sandbox." else "")
    ++ get_marketplace_domain marketplace_id ++ "/itm/" ++ toString listing_id

/-- `str.replace("EBAY_", "")` on the character list: delete every
(non-overlapping, left-to-right) occurrence of `EBAY_`.  Implemented by
structural recursion so that it evaluates inside the kernel. -/
def dropEbayMarker : List Char → List Char
  | 'E' :: 'B' :: 'A' :: 'Y' :: '_' :: rest => dropEbayMarker rest
  | c :: rest => c :: dropEbayMarker rest
  | [] => []

/-- `str.lower()`, character by character. -/
def lowerStr (s : String) : String := String.mk (s.data.map Char.toLower)

/-- `s[:n]` — Python slicing truncates by characters. -/
def strTake (s : String) (n : Nat) : String := String.mk (s.data.take n)

/-- `marketplace_id.replace("EBAY_", "").lower()`: the per-marketplace SKU
suffix. -/
def mpSuffix (marketplace_id : String) : String :=
  lowerStr (String.mk (dropEbayMarker marketplace_id.data))

/-- The marketplace-scoped SKU `f"{sku}-{mp_suffix}"`. -/
def scopedSku (sku marketplace_id : String) : String :=
  sku ++ "-" ++ mpSuffix marketplace_id

/-! ## Category resolver — taxonomy lookup with cache (server.py 128-222)

The taxonomy API is abstracted as
`taxonomy : marketplace_id → query → Option (List (Option String))`:
`none` models a non-200 response or a raised exception, `some l` a 200
response whose `categorySuggestions` have the `categoryId` fields `l` (an
element is `none` when a suggestion lacks a `categoryId`).  The process-wide
`_category_cache` keyed by `f"{marketplace_id}:{query}"` is modelled as an
association list keyed by the pair. -/

/-- The process-wide `_category_cache`; a cached value can itself be `None`
(the source caches `best_category.get("categoryId")` unconditionally). -/
abbrev CatCache := List ((String × String) × Option String)

/-- `MARKETPLACE_CATEGORY_TREE` (server.py 118-125). -/
def MARKETPLACE_CATEGORY_TREE : List (String × String) :=
  [("EBAY_US", "0"), ("EBAY_DE", "77"), ("EBAY_ES", "186"),
   ("EBAY_AU", "15"), ("EBAY_IT", "101"), ("EBAY_UK", "3")]

/-- The `type_queries` table of `get_valid_category_for_marketplace`. -/
def type_queries : List (String × String) :=
  [("WHL", "skateboard wheels"), ("TRK", "skateboard trucks"),
   ("DCK", "skateboard deck"), ("APP", "skateboard clothing"),
   ("MISC", "skateboard accessories")]

/-- `get_category_suggestion_for_marketplace` (server.py 130-185): cache hit
returns the cached value (even a cached `None`); otherwise, with a known
category tree id, one taxonomy call is made and the first suggestion's
`categoryId` is cached and returned; failures and empty suggestion lists
return `None` uncached.  Returns (value, cache, calls made). -/
def get_category_suggestion_for_marketplace
    (taxonomy : String → String → Option (List (Option String)))
    (cache : CatCache) (marketplace_id query : String) :
    Option String × CatCache × List CallEv :=
  match alookup cache (marketplace_id, query) with
  | some v => (v, cache, [])
  | none =>
    match alookup MARKETPLACE_CATEGORY_TREE marketplace_id with
    | none => (none, cache, [])
    | some tree_id =>
      if tree_id.isEmpty then (none, cache, [])
      else
        match taxonomy marketplace_id query with
        | none => (none, cache, [.taxonomyGet marketplace_id query])
        | some [] => (none, cache, [.taxonomyGet marketplace_id query])
        | some (s :: _) =>
          (s, aset cache (marketplace_id, query) s,
           [.taxonomyGet marketplace_id query])

/-- `get_valid_category_for_marketplace` (server.py 187-222): canned query
from the item type, taxonomy suggestion if truthy, else the static fallback
table (the unused `title` parameter of the source is dropped). -/
def get_valid_category_for_marketplace
    (taxonomy : String → String → Option (List (Option String)))
    (cache : CatCache) (marketplace_id item_type : String) :
    String × CatCache × List CallEv :=
  let query := (alookup type_queries item_type).getD "skateboard"
  let r := get_category_suggestion_for_marketplace taxonomy cache marketplace_id query
  match r.1 with
  | some s =>
    if s.isEmpty then (get_category_for_item item_type marketplace_id, r.2.1, r.2.2)
    else (s, r.2.1, r.2.2)
  | none => (get_category_for_item item_type marketplace_id, r.2.1, r.2.2)

/-- The leading run of digits of a string: `re.match(r'^(\d+)', s)`. -/
def leadingDigits (s : String) : String :=
  String.mk (s.toList.takeWhile Char.isDigit)

/-- Outcome of the category-resolution block of the publish loop
(server.py 4660-4695). -/
inductive CatOutcome where
  | missing (cache : CatCache) (calls : List CallEv)
  | badFormat (raw : String) (cache : CatCache) (calls : List CallEv)
  | ok (categoryId : String) (cache : CatCache) (calls : List CallEv)
deriving Repr, DecidableEq

/-- The falsy-check (`if not category_id`) and digit sanitization applied to
the resolved category value: a falsy value is the "Categoria mancante" error,
a value with no leading digits the "Formato categoria non valido" error. -/
def sanitizeCat (cat : String) (c : CatCache) (t : List CallEv) : CatOutcome :=
  if cat.isEmpty then .missing c t
  else if (leadingDigits cat).isEmpty then .badFormat cat c t
  else .ok (leadingDigits cat) c t

/-- The category-resolution block of the publish loop: a truthy
`category_by_marketplace` entry wins, else the taxonomy/fallback resolver
(which always returns a string, so the `None` case of the source's falsy
check can only fire on emptiness); the result is then sanitized. -/
def resolve_offer_category
    (taxonomy : String → String → Option (List (Option String)))
    (cache : CatCache) (draft : Draft) (marketplace_id : String) : CatOutcome :=
  let c0 := alookup draft.category_by_marketplace marketplace_id
  if truthyOS c0 then sanitizeCat (c0.getD "") cache []
  else
    let r := get_valid_category_for_marketplace taxonomy cache marketplace_id
      draft.item_type
    sanitizeCat r.1 r.2.1 r.2.2

/-- The claim-side description of the category priority chain: the first
available of the user-set `category_by_marketplace` entry, the (cached)
taxonomy first suggestion, and the static fallback table (whose lookup
already carries the universal fallback id) — "available" meaning present and
non-empty, as the source tests Python truthiness at each step. -/
def firstAvailableCategory (userCat sugg : Option String) (fallback : String) :
    String :=
  if truthyOS userCat then userCat.getD ""
  else if truthyOS sugg then sugg.getD ""
  else fallback

lemma get_valid_category_value
    (taxonomy : String → String → Option (List (Option String)))
    (cache : CatCache) (marketplace_id item_type : String) :
    (get_valid_category_for_marketplace taxonomy cache marketplace_id item_type).1 =
      (if truthyOS (get_category_suggestion_for_marketplace taxonomy cache
          marketplace_id ((alookup type_queries item_type).getD "skateboard")).1
       then ((get_category_suggestion_for_marketplace taxonomy cache
          marketplace_id ((alookup type_queries item_type).getD "skateboard")).1).getD ""
       else get_category_for_item item_type marketplace_id) := by
  simp only [get_valid_category_for_marketplace]
  rcases hs : (get_category_suggestion_for_marketplace taxonomy cache
      marketplace_id ((alookup type_queries item_type).getD "skateboard")).1
    with _ | s
  · simp [truthyOS]
  · by_cases he : s.isEmpty = true <;> simp [truthyOS, he]

lemma sanitizeCat_ok (cat : String) (c : CatCache) (t : List CallEv)
    (x : String) (c' : CatCache) (t' : List CallEv)
    (h : sanitizeCat cat c t = .ok x c' t') :
    x = leadingDigits cat ∧ c' = c ∧ t' = t := by
  unfold sanitizeCat at h
  by_cases h1 : cat.isEmpty = true
  · rw [if_pos h1] at h; cases h
  · rw [if_neg h1] at h
    by_cases h2 : (leadingDigits cat).isEmpty = true
    · rw [if_pos h2] at h; cases h
    · rw [if_neg h2] at h; cases h; exact ⟨rfl, rfl, rfl⟩

lemma resolve_offer_category_ok_value
    (taxonomy : String → String → Option (List (Option String)))
    (cache : CatCache) (draft : Draft) (marketplace_id : String)
    (cat : String) (c : CatCache) (t : List CallEv)
    (h : resolve_offer_category taxonomy cache draft marketplace_id = .ok cat c t) :
    cat = leadingDigits
      (if truthyOS (alookup draft.category_by_marketplace marketplace_id) then
        (alookup draft.category_by_marketplace marketplace_id).getD ""
      else (get_valid_category_for_marketplace taxonomy cache marketplace_id
        draft.item_type).1) := by
  simp only [resolve_offer_category] at h
  by_cases h0 : truthyOS (alookup draft.category_by_marketplace marketplace_id) = true
  · rw [if_pos h0] at h ⊢
    exact (sanitizeCat_ok _ _ _ _ _ _ h).1
  · rw [if_neg h0] at h ⊢
    exact (sanitizeCat_ok _ _ _ _ _ _ h).1

/-- **C8.** Whenever the publish loop's category block succeeds, the category
id it places in the offer payload is the leading run of digits of the first
available of: the draft's `category_by_marketplace` entry, the taxonomy
API's first (cached) suggestion, and the static `(item type, marketplace)`
fallback table lookup (which carries the universal fallback id); in
particular `"63632 - Wheels"` normalizes to `"63632"`. -/
theorem category_in_payload_is_sanitized_chain
    (taxonomy : String → String → Option (List (Option String)))
    (cache : CatCache) (draft : Draft) (marketplace_id : String) :
    (∀ cat c t,
      resolve_offer_category taxonomy cache draft marketplace_id = .ok cat c t →
      cat = leadingDigits (firstAvailableCategory
        (alookup draft.category_by_marketplace marketplace_id)
        (get_category_suggestion_for_marketplace taxonomy cache marketplace_id
          ((alookup type_queries draft.item_type).getD "skateboard")).1
        (get_category_for_item draft.item_type marketplace_id))) ∧
    leadingDigits "63632 - Wheels" = "63632" := by
  constructor
  · intro cat c t h
    have h1 := resolve_offer_category_ok_value taxonomy cache draft marketplace_id
      cat c t h
    rw [h1, get_valid_category_value]
    rfl
  · rfl

/-- Witness for `category_in_payload_is_sanitized_chain`: a user-set entry
`"63632 - Wheels"` resolves to payload category `"63632"`. -/
theorem category_sanitized_chain_witness :
    "63632" = leadingDigits (firstAvailableCategory
      (alookup [("EBAY_AU", "63632 - Wheels")] "EBAY_AU")
      (get_category_suggestion_for_marketplace (fun _ _ => none) [] "EBAY_AU"
        ((alookup type_queries "WHL").getD "skateboard")).1
      (get_category_for_item "WHL" "EBAY_AU")) := by
  exact (category_in_payload_is_sanitized_chain (fun _ _ => none) []
    { category_by_marketplace := [("EBAY_AU", "63632 - Wheels")],
      item_type := "WHL" } "EBAY_AU").1 "63632" [] [] (by rfl)

/-! ## Unpublish / teardown orchestrator (server.py 1297-1546)

`delete_draft_marketplace` and `delete_draft`.  The remote side is an oracle:
`offersFor sku` is the offer-list call (`none` = non-200, `some l` = 200 with
offers `l`); withdraw / offer-delete / inventory-delete outcomes are boolean
oracles.  Failures of the offer-delete and inventory-delete steps are logged
by the source but NOT collected into `ebay_errors`; only withdraw failures
and a connection failure are. -/

/-- An offer as seen by the teardown code: it reads only `offerId` and
`status`. -/
structure TOffer where
  offerId : Nat
  status : String := ""
deriving Repr, DecidableEq

/-- The environment of a teardown run. -/
structure TeardownEnv where
  connected : Bool := true
  connectErr : String := ""
  offersFor : String → Option (List TOffer) := fun _ => some []
  withdrawOk : Nat → Bool := fun _ => true
  withdrawErrText : Nat → String := fun _ => ""
  deleteOfferOk : Nat → Bool := fun _ => true
  deleteInvOk : String → Bool := fun _ => true

/-- The withdraw/delete pass over one SKU's offers: collects withdraw
failures of published offers, deletes every offer, then deletes the
inventory item; returns (collected errors, calls made). -/
def teardownSku (env : TeardownEnv) (sku : String) :
    List String × List CallEv :=
  let r :=
    match env.offersFor sku with
    | some offers =>
      offers.foldl (fun (acc : List String × List CallEv) (o : TOffer) =>
        let withW :=
          if o.status == "PUBLISHED" then
            (acc.1 ++ (if env.withdrawOk o.offerId then []
              else ["Failed to withdraw offer " ++ toString o.offerId ++ ": "
                ++ strTake (env.withdrawErrText o.offerId) 200]),
             acc.2 ++ [CallEv.offerWithdraw o.offerId])
          else acc
        (withW.1, withW.2 ++ [CallEv.offerDelete o.offerId]))
        ([], [CallEv.offersListBySku sku])
    | none => ([], [CallEv.offersListBySku sku])
  (r.1, r.2 ++ [CallEv.inventoryDelete sku])

/-- Result of `delete_draft_marketplace`. -/
structure DeleteMpResult where
  notFound : Bool := false
  message : String := ""
  remaining_marketplaces : List String := []
  ebay_deleted : Bool := false
  ebay_errors : List String := []
  draft : Draft := {}
  trace : List CallEv := []
deriving Repr, DecidableEq

/-- `delete_draft_marketplace(draft_id, marketplace_id)` (server.py
1424-1546): 404 unless the draft exists and has a `marketplace_listings`
entry for the marketplace; best-effort remote teardown of the scoped SKU
(collecting withdraw/connection errors only); then the local mutation always
runs: the marketplace is removed from `marketplace_listings` and
`multi_marketplace_results`, and if no listings remain the status reverts to
DRAFT and `listing_id`/`offer_id` are cleared. -/
def delete_draft_marketplace (draft? : Option Draft) (marketplace_id : String)
    (env : TeardownEnv) : DeleteMpResult :=
  match draft? with
  | none => { notFound := true }
  | some draft =>
    match alookup draft.marketplace_listings marketplace_id with
    | none => { notFound := true, draft := draft }
    | some mp_data =>
      let mp_sku := mp_data.sku
      let et :=
        if env.connected then teardownSku env mp_sku
        else (["eBay not connected: " ++ env.connectErr], [])
      let listings' := aerase draft.marketplace_listings marketplace_id
      let multi' := aerase draft.multi_marketplace_results marketplace_id
      let draft' := { draft with
        marketplace_listings := listings',
        multi_marketplace_results := multi',
        status := if listings'.isEmpty then "DRAFT" else draft.status,
        listing_id := if listings'.isEmpty then none else draft.listing_id,
        offer_id := if listings'.isEmpty then none else draft.offer_id }
      { message := "Listing removed from " ++ marketplace_id,
        remaining_marketplaces := akeys listings',
        ebay_deleted := et.1.isEmpty,
        ebay_errors := et.1,
        draft := draft',
        trace := et.2 }

/-- Result of `delete_draft`.  `ebay_deleted = none` models the response not
carrying the key (the source adds it only when `listing_id or
multi_results`). -/
structure DeleteDraftResult where
  notFound : Bool := false
  message : String := ""
  draftDeleted : Bool := false
  ebay_deleted : Option Bool := none
  ebay_errors : List String := []
  trace : List CallEv := []
deriving Repr, DecidableEq

/-- The SKU set `delete_draft` tears down: the base SKU plus every
`marketplace_listings` SKU (a Python `set`; modelled as an insertion-ordered
deduplicated list — the claims stated over it do not depend on iteration
order). -/
def skusToDelete (draft : Draft) : List String :=
  draft.marketplace_listings.foldl
    (fun acc p =>
      if p.2.sku.isEmpty then acc
      else if p.2.sku ∈ acc then acc else acc ++ [p.2.sku])
    (if draft.sku.isEmpty then [] else [draft.sku])

/-- `delete_draft(draft_id)` (server.py 1297-1421): best-effort remote
teardown of every known SKU when the draft has any trace of a listing, then
the local record is deleted unconditionally; collected errors are surfaced in
the response when `listing_id` or `multi_marketplace_results` is truthy. -/
def delete_draft (draft? : Option Draft) (env : TeardownEnv) :
    DeleteDraftResult :=
  match draft? with
  | none => { notFound := true }
  | some draft =>
    let attempted := draft.listing_id.isSome
      || !draft.multi_marketplace_results.isEmpty
      || !draft.marketplace_listings.isEmpty
    let et :=
      if attempted then
        if env.connected then
          (skusToDelete draft).foldl
            (fun (acc : List String × List CallEv) sku =>
              let r := teardownSku env sku
              (acc.1 ++ r.1, acc.2 ++ r.2)) ([], [])
        else (["eBay not connected: " ++ env.connectErr], [])
      else ([], [])
    let withKey := draft.listing_id.isSome
      || !draft.multi_marketplace_results.isEmpty
    { message :=
        if withKey then
          if et.1.isEmpty then "Draft and eBay listing deleted successfully"
          else "Draft deleted locally. Some eBay listings may need manual removal."
        else "Draft deleted",
      draftDeleted := true,
      ebay_deleted := if withKey then some et.1.isEmpty else none,
      ebay_errors := if withKey then et.1 else [],
      trace := et.2 }

/-- **C9.** Teardown tolerance: a per-marketplace unpublish call on a draft
that has the marketplace entry never 404s, always removes the local
`marketplace_listings` (and `multi_marketplace_results`) entry — whatever
the remote oracles do — and reports success exactly when the collected
per-step errors are empty; in particular, when the remote offer was already
deleted out-of-band (the offer query finds no offers) the call returns
success even though the inventory delete reports not-found.  Likewise
`delete_draft` always deletes the local record, whatever the remote
teardown does, and surfaces the collected errors. -/
theorem teardown_tolerates_remote_absence (draft : Draft)
    (marketplace_id : String) (env : TeardownEnv) (mp_data : MpListing)
    (h : alookup draft.marketplace_listings marketplace_id = some mp_data) :
    (delete_draft_marketplace (some draft) marketplace_id env).notFound = false ∧
    alookup (delete_draft_marketplace (some draft) marketplace_id
      env).draft.marketplace_listings marketplace_id = none ∧
    alookup (delete_draft_marketplace (some draft) marketplace_id
      env).draft.multi_marketplace_results marketplace_id = none ∧
    (delete_draft_marketplace (some draft) marketplace_id env).ebay_deleted =
      (delete_draft_marketplace (some draft) marketplace_id
        env).ebay_errors.isEmpty ∧
    (env.connected = true → env.offersFor mp_data.sku = some [] →
      env.deleteInvOk mp_data.sku = false →
      (delete_draft_marketplace (some draft) marketplace_id env).ebay_deleted
        = true) ∧
    (delete_draft (some draft) env).draftDeleted = true ∧
    (delete_draft (some draft) env).notFound = false ∧
    (delete_draft (some draft) env).ebay_deleted =
      (if draft.listing_id.isSome || !draft.multi_marketplace_results.isEmpty
       then some (delete_draft (some draft) env).ebay_errors.isEmpty
       else none) := by
  have hmain : delete_draft_marketplace (some draft) marketplace_id env =
      (let mp_sku := mp_data.sku
       let et :=
         if env.connected then teardownSku env mp_sku
         else (["eBay not connected: " ++ env.connectErr], [])
       let listings' := aerase draft.marketplace_listings marketplace_id
       let multi' := aerase draft.multi_marketplace_results marketplace_id
       let draft' := { draft with
         marketplace_listings := listings',
         multi_marketplace_results := multi',
         status := if listings'.isEmpty then "DRAFT" else draft.status,
         listing_id := if listings'.isEmpty then none else draft.listing_id,
         offer_id := if listings'.isEmpty then none else draft.offer_id }
       { message := "Listing removed from " ++ marketplace_id,
         remaining_marketplaces := akeys listings',
         ebay_deleted := et.1.isEmpty,
         ebay_errors := et.1,
         draft := draft',
         trace := et.2 }) := by
    simp only [delete_draft_marketplace, h]
  refine ⟨?_, ?_, ?_, ?_, ?_, ?_, ?_, ?_⟩
  · rw [hmain]
  · rw [hmain]
    simp [alookup, aerase, List.find?_filter]
  · rw [hmain]
    simp [alookup, aerase, List.find?_filter]
  · rw [hmain]
  · intro hconn hoffers hinv
    rw [hmain]
    simp only [hconn, if_true, teardownSku, hoffers]
    rfl
  · simp only [delete_draft]
  · simp only [delete_draft]
  · simp only [delete_draft]
    by_cases hw : (draft.listing_id.isSome
        || !draft.multi_marketplace_results.isEmpty) = true <;>
      simp [hw]

/-- Witness for `teardown_tolerates_remote_absence`: a draft published only
on EBAY_US whose remote offer is already gone and whose inventory delete
404s still unpublishes successfully. -/
theorem teardown_tolerance_witness :
    DeleteMpResult.ebay_deleted
      (delete_draft_marketplace
        (some { sku := "VSB-001",
                marketplace_listings :=
                  [("EBAY_US", { sku := "VSB-001-us", offer_id := some 7,
                                 listing_id := some 3 })],
                status := "PUBLISHED", listing_id := some 3, offer_id := some 7 })
        "EBAY_US"
        { offersFor := fun _ => some [], deleteInvOk := fun _ => false }) = true ∧
    DeleteMpResult.notFound
      (delete_draft_marketplace
        (some { sku := "VSB-001",
                marketplace_listings :=
                  [("EBAY_US", { sku := "VSB-001-us", offer_id := some 7,
                                 listing_id := some 3 })],
                status := "PUBLISHED", listing_id := some 3, offer_id := some 7 })
        "EBAY_US"
        { offersFor := fun _ => some [], deleteInvOk := fun _ => false }) = false := by
  have h := teardown_tolerates_remote_absence
    { sku := "VSB-001",
      marketplace_listings :=
        [("EBAY_US", { sku := "VSB-001-us", offer_id := some 7,
                       listing_id := some 3 })],
      status := "PUBLISHED", listing_id := some 3, offer_id := some 7 }
    "EBAY_US"
    { offersFor := fun _ => some [], deleteInvOk := fun _ => false }
    { sku := "VSB-001-us", offer_id := some 7, listing_id := some 3 }
    (by rfl)
  exact ⟨h.2.2.2.2.1 rfl rfl rfl, h.1⟩

/-- **C10.** When the per-marketplace unpublish removes the last remaining
`marketplace_listings` entry, the draft's status is set back to DRAFT and its
`listing_id` and `offer_id` are cleared; when at least one other entry
remains, status, `listing_id` and `offer_id` are left unchanged. -/
theorem unpublish_last_listing_resets_status (draft : Draft)
    (marketplace_id : String) (env : TeardownEnv) (mp_data : MpListing)
    (h : alookup draft.marketplace_listings marketplace_id = some mp_data) :
    ((aerase draft.marketplace_listings marketplace_id).isEmpty = true →
      (delete_draft_marketplace (some draft) marketplace_id env).draft.status
          = "DRAFT" ∧
      (delete_draft_marketplace (some draft) marketplace_id env).draft.listing_id
          = none ∧
      (delete_draft_marketplace (some draft) marketplace_id env).draft.offer_id
          = none) ∧
    ((aerase draft.marketplace_listings marketplace_id).isEmpty = false →
      (delete_draft_marketplace (some draft) marketplace_id env).draft.status
          = draft.status ∧
      (delete_draft_marketplace (some draft) marketplace_id env).draft.listing_id
          = draft.listing_id ∧
      (delete_draft_marketplace (some draft) marketplace_id env).draft.offer_id
          = draft.offer_id) := by
  constructor
  · intro he
    simp only [delete_draft_marketplace, h, he]
    exact ⟨rfl, rfl, rfl⟩
  · intro he
    simp only [delete_draft_marketplace, h, he]
    exact ⟨rfl, rfl, rfl⟩

/-- Witness for `unpublish_last_listing_resets_status`: removing the only
listing resets the draft to DRAFT with cleared ids. -/
theorem unpublish_last_listing_witness :
    (DeleteMpResult.draft
      (delete_draft_marketplace
        (some { sku := "VSB-001",
                marketplace_listings :=
                  [("EBAY_US", { sku := "VSB-001-us", offer_id := some 7,
                                 listing_id := some 3 })],
                status := "PUBLISHED", listing_id := some 3, offer_id := some 7 })
        "EBAY_US" {})).status = "DRAFT" ∧
    (DeleteMpResult.draft
      (delete_draft_marketplace
        (some { sku := "VSB-001",
                marketplace_listings :=
                  [("EBAY_US", { sku := "VSB-001-us", offer_id := some 7,
                                 listing_id := some 3 })],
                status := "PUBLISHED", listing_id := some 3, offer_id := some 7 })
        "EBAY_US" {})).listing_id = none := by
  have h := unpublish_last_listing_resets_status
    { sku := "VSB-001",
      marketplace_listings :=
        [("EBAY_US", { sku := "VSB-001-us", offer_id := some 7,
                       listing_id := some 3 })],
      status := "PUBLISHED", listing_id := some 3, offer_id := some 7 }
    "EBAY_US" {}
    { sku := "VSB-001-us", offer_id := some 7, listing_id := some 3 }
    (by rfl)
  have h1 := h.1 (by rfl)
  exact ⟨h1.1, h1.2.1⟩

/-! ## Publish orchestrator — `publish_draft_multi_marketplace`
(server.py 4384-5016)

The remote marketplace API is modelled as the `Remote` state machine plus
failure-injection oracles in `Env` (its operations follow the named
black-box operations of the spec's external-interface section): the offer
query returns the remote's offers for a SKU; offer creation assigns a fresh
id (the "already exists" 400 is injectable through `CreateMode`); publishing
an offer goes through `retry_with_backoff` with `max_retries = 3`,
`base_delay = 2.0`, and on acceptance marks the offer published under a fresh
listing id. -/

/-- Per-attempt behaviour of the remote publish endpoint for one
marketplace. -/
inductive PubAttempt where
  | ok
  | fail (status : Nat) (body : String)
  | timeout
deriving Repr, DecidableEq

/-- Behaviour of the remote create-offer endpoint for one marketplace:
`normal` follows the API contract (fresh offer, or "already exists" when one
is there); `fail` injects an error response, optionally carrying the
"already exists" offer id that the source parses out of a 400 body. -/
inductive CreateMode where
  | normal
  | fail (status : Nat) (body : String) (alreadyExistsId : Option Nat)
deriving Repr, DecidableEq

/-- Environment of one publish run: connection state, sandbox flag, the
taxonomy oracle, failure injection for the offer endpoints, and the jitter
stream for the retry executor. -/
structure Env where
  connected : Bool := true
  use_sandbox : Bool := true
  taxonomy : String → String → Option (List (Option String)) := fun _ _ => none
  publishAttempt : String → Nat → PubAttempt := fun _ _ => .ok
  deleteOfferOk : Nat → Bool := fun _ => true
  updateOfferOk : Nat → Bool := fun _ => true
  createMode : String → CreateMode := fun _ => .normal
  rand : Nat → ℚ := fun _ => 1/2

/-- `deleteOffer(offer_id)` on the remote. -/
def Remote.deleteOffer (r : Remote) (oid : Nat) : Remote :=
  { r with offers := r.offers.filter (fun o => !(o.offerId == oid)) }

/-- `createOffer` on the remote: a fresh offer id for the scoped SKU and
marketplace. -/
def Remote.createOffer (r : Remote) (sku mp : String) : Nat × Remote :=
  (r.nextOfferId,
   { r with
     offers := r.offers ++ [{ sku := sku, marketplaceId := mp,
                              offerId := r.nextOfferId }],
     nextOfferId := r.nextOfferId + 1 })

/-- A successful `publishOffer` on the remote: the offer acquires a fresh
live listing id. -/
def Remote.markPublished (r : Remote) (oid : Nat) : Nat × Remote :=
  (r.nextListingId,
   { r with
     offers := r.offers.map (fun o =>
       if o.offerId == oid then { o with listingId := some r.nextListingId }
       else o),
     nextListingId := r.nextListingId + 1 })

/-- The publish call through `retry_with_backoff(max_retries=3,
base_delay=2.0)`: each attempt's outcome comes from `env.publishAttempt`;
an accepted publish (a response carrying a listing id) marks the offer
published on the remote. -/
def publishOffer (env : Env) (mp : String) (remote : Remote) (oid : Nat) :
    RetryResult × Remote :=
  let lid := remote.nextListingId
  let oracle : Nat → AttemptOutcome := fun k =>
    match env.publishAttempt mp k with
    | .ok => .resp { status := 200, body := "ok", listingId := some lid }
    | .fail s b => .resp { status := s, body := b }
    | .timeout => .timeout
  let rr := retry_with_backoff oracle 3 2 env.rand
  match rr.response with
  | some r =>
    if r.status = 200 ∨ r.status = 204 then
      if r.listingId.isSome then (rr, (remote.markPublished oid).2)
      else (rr, remote)
    else (rr, remote)
  | none => (rr, remote)

/-- `draft.get("price") or mp_config.get("default_price", 25.00)`: a falsy
draft price (absent or zero) falls back to the literal `25.00` (the merged
config has no `default_price` key, so the `.get` default always fires). -/
def defaultDraftPrice (draft : Draft) : ℚ :=
  match draft.price with
  | some p => if p = 0 then 25 else p
  | none => 25

/-- The per-marketplace price: a custom price if the (truthy) custom-price
dict has an entry for the marketplace, else the draft/default price. -/
def computePrice (draft : Draft) (custom_prices : List (String × ℚ))
    (mp : String) : ℚ :=
  match custom_prices with
  | [] => defaultDraftPrice draft
  | _ =>
    match alookup custom_prices mp with
    | some p => p
    | none => defaultDraftPrice draft

/-- Output of the offer-reconciliation/publish phase for one marketplace. -/
structure PhaseOut where
  entry : MpResult
  remote : Remote
  calls : List CallEv
  exn : Bool := false
deriving Repr, DecidableEq

/-- The publish step for one concrete offer id (server.py 4905-4975):
`retry_with_backoff`, then classification of the final response; a re-raised
timeout escapes the whole endpoint (`exn`). -/
def publishPhase (env : Env) (mp : String) (price : ℚ) (currency : String)
    (remote : Remote) (oid : Nat) (tr : List CallEv) : PhaseOut :=
  let pr := publishOffer env mp remote oid
  let rr := pr.1
  let tr' := tr ++ [CallEv.offerPublish oid rr.attempt]
  if rr.raised then { entry := {}, remote := remote, calls := tr', exn := true }
  else
    match rr.response with
    | some r =>
      if r.status = 200 ∨ r.status = 204 then
        { entry := { success := true, offer_id := some oid,
                     listing_id := r.listingId,
                     price := some (price, currency),
                     listing_url := r.listingId.map (listingUrl env.use_sandbox mp),
                     retries := if 1 < rr.attempt then some (rr.attempt - 1)
                       else none },
          remote := pr.2, calls := tr' }
      else
        { entry := { success := false, offer_id := some oid,
                     error := some (if r.body.isEmpty then "Unknown error"
                       else strTake r.body 300),
                     retries := if 1 < rr.attempt then some (rr.attempt - 1)
                       else none },
          remote := pr.2, calls := tr' }
    | none =>
      { entry := { success := false, offer_id := some oid,
                   error := some "Unknown error" },
        remote := pr.2, calls := tr' }

/-- The create-offer branch (server.py 4855-4895): a fresh offer under
`CreateMode.normal`; a 400 with a parseable "already exists" offer id reuses
that id; any other failure records the "Create offer failed" error. -/
def createAndPublish (env : Env) (mp mp_sku cat : String) (price : ℚ)
    (currency : String) (remote : Remote) (tr : List CallEv) : PhaseOut :=
  let tr' := tr ++ [CallEv.offerCreate mp_sku mp cat]
  match env.createMode mp with
  | .normal =>
    let cr := remote.createOffer mp_sku mp
    publishPhase env mp price currency cr.2 cr.1 tr'
  | .fail s b aeid =>
    if s = 400 then
      match aeid with
      | some oid => publishPhase env mp price currency remote oid tr'
      | none =>
        { entry := { success := false,
                     error := some ("Create offer failed: " ++ strTake b 200) },
          remote := remote, calls := tr' }
    else
      { entry := { success := false,
                   error := some ("Create offer failed: " ++ strTake b 200) },
        remote := remote, calls := tr' }

/-- Offer reconciliation (server.py 4826-4903): an existing unpublished offer
is deleted (then recreated); if the delete fails, a full-payload update; if
that also fails the "Failed to create or retrieve offer ID" error; with no
existing offer, straight to creation. -/
def offerPhase (env : Env) (mp mp_sku cat : String) (price : ℚ)
    (currency : String) (remote : Remote) (existing : Option Nat) : PhaseOut :=
  match existing with
  | some oid =>
    if env.deleteOfferOk oid then
      createAndPublish env mp mp_sku cat price currency (remote.deleteOffer oid)
        [CallEv.offerDelete oid]
    else if env.updateOfferOk oid then
      publishPhase env mp price currency remote oid
        [CallEv.offerDelete oid, CallEv.offerUpdate oid cat]
    else
      { entry := { success := false,
                   error := some "Failed to create or retrieve offer ID" },
        remote := remote,
        calls := [CallEv.offerDelete oid, CallEv.offerUpdate oid cat] }
  | none => createAndPublish env mp mp_sku cat price currency remote []

/-- The draft-history short-circuit (server.py 4808-4824) followed by the
offer phase: a truthy `multi_marketplace_results[mp].listing_id` yields an
immediate success reusing the recorded offer and listing ids. -/
def historyOrOffer (draft : Draft) (env : Env) (mp mp_sku cat : String)
    (price : ℚ) (currency : String) (remote : Remote)
    (existing : Option Nat) : PhaseOut :=
  match alookup draft.multi_marketplace_results mp with
  | some er =>
    match er.listing_id with
    | some lid =>
      { entry := { success := true, offer_id := er.offer_id,
                   listing_id := some lid, price := some (price, currency),
                   listing_url := some (listingUrl env.use_sandbox mp lid),
                   note := some "Already published (from draft history)" },
        remote := remote, calls := [] }
    | none => offerPhase env mp mp_sku cat price currency remote existing
  | none => offerPhase env mp mp_sku cat price currency remote existing

/-- Orchestrator state threaded through the step-3 loop. -/
structure PubSt where
  results : List (String × MpResult) := []
  remote : Remote := {}
  cache : CatCache := []
  trace : List CallEv := []
  exn : Bool := false
deriving Repr, DecidableEq

/-- One iteration of the step-3 loop (server.py 4645-4975): config, price,
category resolution (possibly a taxonomy call), the redundant policy safety
check, the offer query with its published-offer short-circuit, the history
short-circuit, reconciliation, and publish.  A pending re-raised timeout
(`st.exn`) skips all further work, as the Python exception would. -/
def processMp (draft : Draft) (settings : Settings)
    (custom_prices : List (String × ℚ)) (env : Env) (st : PubSt)
    (mp : String) : PubSt :=
  if st.exn then st
  else
    match get_marketplace_config mp settings with
    | none =>
      { st with results := aset st.results mp { error := some "Unknown marketplace" } }
    | some cfg =>
      let price := computePrice draft custom_prices mp
      let currency := cfg.currency
      match resolve_offer_category env.taxonomy st.cache draft mp with
      | .missing cache' tr =>
        { st with
          cache := cache', trace := st.trace ++ tr,
          results := aset st.results mp
            { success := false,
              error := some ("Categoria mancante per " ++ mp) } }
      | .badFormat raw cache' tr =>
        { st with
          cache := cache', trace := st.trace ++ tr,
          results := aset st.results mp
            { success := false,
              error := some ("Formato categoria non valido per " ++ mp ++ ": "
                ++ raw) } }
      | .ok cat cache' tr =>
        if !(truthyOS cfg.policies.fulfillment_policy_id
            && truthyOS cfg.policies.payment_policy_id
            && truthyOS cfg.policies.return_policy_id) then
          { st with
            cache := cache', trace := st.trace ++ tr,
            results := aset st.results mp
              { error := some ("Missing policy IDs for " ++ mp
                  ++ ". Configure in Settings.") } }
        else
          let mp_sku := scopedSku draft.sku mp
          let tr1 := tr ++ [CallEv.offersGet mp_sku mp]
          let found := (st.remote.offers.filter
            (fun o => o.sku == mp_sku)).find? (fun o => o.marketplaceId == mp)
          let po : PhaseOut :=
            match found with
            | some o =>
              match o.listingId with
              | some lid =>
                { entry := { success := true, offer_id := some o.offerId,
                             listing_id := some lid,
                             price := some (price, currency),
                             listing_url := some (listingUrl env.use_sandbox mp lid),
                             note := some "Already published (skipped)" },
                  remote := st.remote, calls := [] }
              | none => historyOrOffer draft env mp mp_sku cat price currency
                  st.remote (some o.offerId)
            | none => historyOrOffer draft env mp mp_sku cat price currency
                st.remote none
          { st with
            results := aset st.results mp po.entry,
            remote := po.remote, cache := cache',
            trace := st.trace ++ tr1 ++ po.calls, exn := po.exn }

/-- Result of one `publish_draft_multi_marketplace` call.
`abortStatus = some s` models a raised `HTTPException(s)` (no marketplace
work, no draft update); `raisedExn` models an escaped timeout exception
(results discarded, draft not updated, remote side effects kept). -/
structure PublishResult where
  abortStatus : Option Nat := none
  abortErrors : List String := []
  raisedExn : Bool := false
  results : List (String × MpResult) := []
  draft : Draft := {}
  remote : Remote := {}
  cache : CatCache := []
  trace : List CallEv := []
deriving Repr, DecidableEq

/-- The upfront configuration gate (server.py 4415-4434): every requested
marketplace's merged profile is validated; all failures are accumulated. -/
def gateMissingConfigs (marketplaces : List String) (settings : Settings) :
    List String :=
  marketplaces.foldl (fun acc mp =>
    match get_marketplace_config mp settings with
    | none => acc ++ ["Unknown marketplace: " ++ mp]
    | some cfg => acc ++ validate_marketplace_for_publish mp (some cfg)) []

/-- The step-2 location-ensure loop (server.py 4600-4642): one GET (and, when
absent, one POST creating it) per distinct location key. -/
def ensureLocations (marketplaces : List String) (settings : Settings)
    (remote : Remote) (tr : List CallEv) :
    List String × Remote × List CallEv :=
  marketplaces.foldl (fun (acc : List String × Remote × List CallEv) mp =>
    match get_marketplace_config mp settings with
    | none => acc
    | some cfg =>
      let key := cfg.merchant_location_key.getD
        ("location_" ++ lowerStr cfg.country_code)
      if key ∈ acc.1 then acc
      else if key ∈ acc.2.1.locations then
        (key :: acc.1, acc.2.1, acc.2.2 ++ [CallEv.locationGet key])
      else
        (key :: acc.1,
         { acc.2.1 with locations := key :: acc.2.1.locations },
         acc.2.2 ++ [CallEv.locationGet key, CallEv.locationPost key]))
    ([], remote, tr)

/-- `publish_draft_multi_marketplace(draft_id, request)` (server.py
4384-5016): 404 for a missing draft; 400 when title or images are missing;
400 when ANY requested marketplace fails config validation (the whole batch
aborts before any outbound call); 401 when eBay is not connected; then the
per-marketplace inventory upserts, the location-ensure pass, the step-3 loop,
and the aggregation writing `multi_marketplace_results`,
`marketplace_listings` (successes only) and, when at least one marketplace
succeeded, `status = PUBLISHED` with the first success's ids. -/
def publish_draft_multi_marketplace (draft? : Option Draft)
    (marketplaces : List String) (custom_prices : List (String × ℚ))
    (settings : Settings) (env : Env) (remote : Remote) (cache : CatCache) :
    PublishResult :=
  match draft? with
  | none =>
    { abortStatus := some 404, abortErrors := ["Draft not found"],
      remote := remote, cache := cache }
  | some draft =>
    let errs := (if draft.title.isEmpty then ["Title is required"] else [])
      ++ (if draft.image_urls.isEmpty then ["At least one image is required"]
          else [])
    if !errs.isEmpty then
      { abortStatus := some 400, abortErrors := errs, draft := draft,
        remote := remote, cache := cache }
    else
      let missing := gateMissingConfigs marketplaces settings
      if !missing.isEmpty then
        { abortStatus := some 400, abortErrors := missing, draft := draft,
          remote := remote, cache := cache }
      else if !env.connected then
        { abortStatus := some 401, abortErrors := ["eBay not connected"],
          draft := draft, remote := remote, cache := cache }
      else
        let invTrace := marketplaces.map (fun mp =>
          CallEv.inventoryPut (scopedSku draft.sku mp) mp)
        let loc := ensureLocations marketplaces settings remote invTrace
        let st0 : PubSt :=
          { results := [], remote := loc.2.1, cache := cache,
            trace := loc.2.2 }
        let st := marketplaces.foldl
          (processMp draft settings custom_prices env) st0
        if st.exn then
          { raisedExn := true, draft := draft, remote := st.remote,
            cache := st.cache, trace := st.trace }
        else
          let successes := st.results.filter (fun p => p.2.success)
          let draft' :=
            match successes with
            | [] =>
              { draft with multi_marketplace_results := st.results,
                           marketplace_listings := [] }
            | s :: _ =>
              { draft with
                multi_marketplace_results := st.results,
                status := "PUBLISHED",
                listing_id := s.2.listing_id,
                offer_id := s.2.offer_id,
                marketplace_listings := successes.map (fun p =>
                  (p.1, { sku := scopedSku draft.sku p.1,
                          offer_id := p.2.offer_id,
                          listing_id := p.2.listing_id,
                          listing_url := p.2.listing_url })) }
          { results := st.results, draft := draft', remote := st.remote,
            cache := st.cache, trace := st.trace }

/-! ### C1 — per-marketplace configuration errors

The source validates every requested marketplace's profile up front and
raises `HTTPException(400)` when anything is missing: the whole batch aborts
(before any outbound call), rather than recording a per-marketplace
`ConfigurationError` and continuing with the other marketplaces.  The
in-loop policy check that would record-and-skip is unreachable behind this
gate. -/

lemma foldl_append_eq {α β : Type} (f : α → List β) :
    ∀ (l : List α) (acc : List β),
      l.foldl (fun a x => a ++ f x) acc = acc ++ (l.map f).flatten := by
  intro l
  induction l with
  | nil => intro acc; simp
  | cons x xs ih =>
    intro acc
    simp only [List.foldl_cons, List.map_cons, List.flatten]
    rw [ih]
    simp

lemma gateMissingConfigs_eq (marketplaces : List String) (settings : Settings) :
    gateMissingConfigs marketplaces settings =
      (marketplaces.map (fun mp =>
        validate_marketplace_for_publish mp (get_marketplace_config mp settings))).flatten := by
  unfold gateMissingConfigs
  have : ∀ (acc : List String),
      marketplaces.foldl (fun acc mp =>
        match get_marketplace_config mp settings with
        | none => acc ++ ["Unknown marketplace: " ++ mp]
        | some cfg => acc ++ validate_marketplace_for_publish mp (some cfg)) acc
      = marketplaces.foldl (fun acc mp =>
          acc ++ validate_marketplace_for_publish mp
            (get_marketplace_config mp settings)) acc := by
    induction marketplaces with
    | nil => intro acc; rfl
    | cons x xs ih =>
      intro acc
      simp only [List.foldl_cons]
      rw [ih]
      congr 1
      cases h : get_marketplace_config x settings <;>
        simp [validate_marketplace_for_publish, h]
  rw [this []]
  simpa using foldl_append_eq
    (fun mp => validate_marketplace_for_publish mp
      (get_marketplace_config mp settings)) marketplaces []

lemma gateMissingConfigs_ne_nil (marketplaces : List String)
    (settings : Settings) (mp : String) (hmp : mp ∈ marketplaces)
    (hval : validate_marketplace_for_publish mp
      (get_marketplace_config mp settings) ≠ []) :
    gateMissingConfigs marketplaces settings ≠ [] := by
  rw [gateMissingConfigs_eq]
  intro hcontra
  exact hval (by
    have := List.flatten_eq_nil_iff.mp hcontra
    exact this _ (List.mem_map_of_mem _ hmp))

/-- **C1 (counterexample).** A concrete run with two marketplaces where
EBAY_DE's profile lacks `return_policy_id` and EBAY_US is fully configured:
the whole call aborts with a 400 listing the missing field, the
per-marketplace result map is empty (no `ConfigurationError` entry for
EBAY_DE), no outbound call is made, and EBAY_US is NOT processed — refuting
the claim that the failing marketplace is skipped while the others
proceed. -/
theorem publish_config_error_counterexample :
    (publish_draft_multi_marketplace
      (some { id := "d1", title := "Vintage wheels", image_urls := ["a.jpg"],
              sku := "VSB-1", item_type := "WHL",
              category_by_marketplace := [("EBAY_US", "63632")] })
      ["EBAY_DE", "EBAY_US"] []
      { marketplaces :=
        [("EBAY_US", { fulfillment_policy_id := some "F1",
                       payment_policy_id := some "P1",
                       return_policy_id := some "R1",
                       merchant_location_key := some "loc_us" }),
         ("EBAY_DE", { fulfillment_policy_id := some "F2",
                       payment_policy_id := some "P2",
                       merchant_location_key := some "loc_de" })] }
      {} {} []).abortStatus = some 400 ∧
    (publish_draft_multi_marketplace
      (some { id := "d1", title := "Vintage wheels", image_urls := ["a.jpg"],
              sku := "VSB-1", item_type := "WHL",
              category_by_marketplace := [("EBAY_US", "63632")] })
      ["EBAY_DE", "EBAY_US"] []
      { marketplaces :=
        [("EBAY_US", { fulfillment_policy_id := some "F1",
                       payment_policy_id := some "P1",
                       return_policy_id := some "R1",
                       merchant_location_key := some "loc_us" }),
         ("EBAY_DE", { fulfillment_policy_id := some "F2",
                       payment_policy_id := some "P2",
                       merchant_location_key := some "loc_de" })] }
      {} {} []).abortErrors = ["return_policy_id for EBAY_DE"] ∧
    (publish_draft_multi_marketplace
      (some { id := "d1", title := "Vintage wheels", image_urls := ["a.jpg"],
              sku := "VSB-1", item_type := "WHL",
              category_by_marketplace := [("EBAY_US", "63632")] })
      ["EBAY_DE", "EBAY_US"] []
      { marketplaces :=
        [("EBAY_US", { fulfillment_policy_id := some "F1",
                       payment_policy_id := some "P1",
                       return_policy_id := some "R1",
                       merchant_location_key := some "loc_us" }),
         ("EBAY_DE", { fulfillment_policy_id := some "F2",
                       payment_policy_id := some "P2",
                       merchant_location_key := some "loc_de" })] }
      {} {} []).results = [] ∧
    (publish_draft_multi_marketplace
      (some { id := "d1", title := "Vintage wheels", image_urls := ["a.jpg"],
              sku := "VSB-1", item_type := "WHL",
              category_by_marketplace := [("EBAY_US", "63632")] })
      ["EBAY_DE", "EBAY_US"] []
      { marketplaces :=
        [("EBAY_US", { fulfillment_policy_id := some "F1",
                       payment_policy_id := some "P1",
                       return_policy_id := some "R1",
                       merchant_location_key := some "loc_us" }),
         ("EBAY_DE", { fulfillment_policy_id := some "F2",
                       payment_policy_id := some "P2",
                       merchant_location_key := some "loc_de" })] }
      {} {} []).trace = [] := by
  refine ⟨rfl, rfl, rfl, rfl⟩

/-- **C1 (amended).** For every publish invocation whose draft passes the
global precondition, if ANY requested marketplace's resolved profile fails
publish validation (missing policy id or merchant location key, or an
unknown marketplace id), the ENTIRE call aborts with a 400 configuration
error listing all missing fields, before any outbound network call (empty
trace, remote untouched) and with no per-marketplace result recorded: no
other requested marketplace is processed.  (The record-and-skip behaviour of
the claim exists only as an unreachable safety check inside the loop.) -/
theorem publish_config_error_aborts_batch (draft : Draft)
    (marketplaces : List String) (custom_prices : List (String × ℚ))
    (settings : Settings) (env : Env) (remote : Remote) (cache : CatCache)
    (mp : String)
    (htitle : draft.title.isEmpty = false)
    (himg : draft.image_urls.isEmpty = false)
    (hmp : mp ∈ marketplaces)
    (hval : validate_marketplace_for_publish mp
      (get_marketplace_config mp settings) ≠ []) :
    (publish_draft_multi_marketplace (some draft) marketplaces custom_prices
      settings env remote cache).abortStatus = some 400 ∧
    (publish_draft_multi_marketplace (some draft) marketplaces custom_prices
      settings env remote cache).abortErrors
      = gateMissingConfigs marketplaces settings ∧
    (publish_draft_multi_marketplace (some draft) marketplaces custom_prices
      settings env remote cache).results = [] ∧
    (publish_draft_multi_marketplace (some draft) marketplaces custom_prices
      settings env remote cache).trace = [] ∧
    (publish_draft_multi_marketplace (some draft) marketplaces custom_prices
      settings env remote cache).remote = remote ∧
    (publish_draft_multi_marketplace (some draft) marketplaces custom_prices
      settings env remote cache).draft = draft := by
  have hmiss := gateMissingConfigs_ne_nil marketplaces settings mp hmp hval
  have hcond : (!(gateMissingConfigs marketplaces settings).isEmpty) = true := by
    simp [List.isEmpty_eq_false, hmiss]
  have hmain : publish_draft_multi_marketplace (some draft) marketplaces
      custom_prices settings env remote cache =
      { abortStatus := some 400,
        abortErrors := gateMissingConfigs marketplaces settings,
        draft := draft, remote := remote, cache := cache } := by
    simp only [publish_draft_multi_marketplace, htitle, himg,
      Bool.false_eq_true, Bool.not_true, if_false, List.append_nil,
      List.isEmpty_nil, Bool.not_false, if_true, hcond]
  rw [hmain]
  exact ⟨rfl, rfl, rfl, rfl, rfl, rfl⟩

/-- Witness for `publish_config_error_aborts_batch` at the counterexample
input: the missing EBAY_DE return policy aborts the whole batch. -/
theorem publish_config_error_witness :
    (publish_draft_multi_marketplace
      (some { id := "d1", title := "Vintage wheels", image_urls := ["a.jpg"],
              sku := "VSB-1", item_type := "WHL",
              category_by_marketplace := [("EBAY_US", "63632")] })
      ["EBAY_DE", "EBAY_US"] []
      { marketplaces :=
        [("EBAY_US", { fulfillment_policy_id := some "F1",
                       payment_policy_id := some "P1",
                       return_policy_id := some "R1",
                       merchant_location_key := some "loc_us" }),
         ("EBAY_DE", { fulfillment_policy_id := some "F2",
                       payment_policy_id := some "P2",
                       merchant_location_key := some "loc_de" })] }
      {} {} []).abortStatus = some 400 ∧
    (publish_draft_multi_marketplace
      (some { id := "d1", title := "Vintage wheels", image_urls := ["a.jpg"],
              sku := "VSB-1", item_type := "WHL",
              category_by_marketplace := [("EBAY_US", "63632")] })
      ["EBAY_DE", "EBAY_US"] []
      { marketplaces :=
        [("EBAY_US", { fulfillment_policy_id := some "F1",
                       payment_policy_id := some "P1",
                       return_policy_id := some "R1",
                       merchant_location_key := some "loc_us" }),
         ("EBAY_DE", { fulfillment_policy_id := some "F2",
                       payment_policy_id := some "P2",
                       merchant_location_key := some "loc_de" })] }
      {} {} []).trace = [] := by
  have h := publish_config_error_aborts_batch
    { id := "d1", title := "Vintage wheels", image_urls := ["a.jpg"],
      sku := "VSB-1", item_type := "WHL",
      category_by_marketplace := [("EBAY_US", "63632")] }
    ["EBAY_DE", "EBAY_US"] []
    { marketplaces :=
      [("EBAY_US", { fulfillment_policy_id := some "F1",
                     payment_policy_id := some "P1",
                     return_policy_id := some "R1",
                     merchant_location_key := some "loc_us" }),
       ("EBAY_DE", { fulfillment_policy_id := some "F2",
                     payment_policy_id := some "P2",
                     merchant_location_key := some "loc_de" })] }
    {} {} [] "EBAY_DE" (by rfl) (by rfl)
    (by simp) (by decide)
  exact ⟨h.1, h.2.2.2.1⟩

/-! ### Supporting lemmas about the publish pipeline -/

lemma alookup_some_key {κ α : Type} [BEq κ] [LawfulBEq κ]
    (m : List (κ × α)) (k : κ) (v : α) (h : alookup m k = some v) :
    k ∈ akeys m := by
  unfold alookup at h
  rcases hf : m.find? (fun p => p.1 == k) with _ | p
  · rw [hf] at h; cases h
  · have hp := List.find?_some hf
    have hm := List.mem_of_find?_eq_some hf
    have : p.1 = k := by simpa using hp
    subst this
    exact List.mem_map_of_mem _ hm

lemma get_marketplace_config_domain (mp : String) (settings : Settings)
    (cfg : MpConfig) (h : get_marketplace_config mp settings = some cfg) :
    mp ∈ akeys MARKETPLACE_CONFIG := by
  unfold get_marketplace_config at h
  rcases hl : alookup MARKETPLACE_CONFIG mp with _ | c0
  · rw [hl] at h; cases h
  · exact alookup_some_key _ _ _ hl

lemma scopedSku_ne_of_suffix_ne (s A B : String)
    (h : (mpSuffix A).data ≠ (mpSuffix B).data) :
    scopedSku s A ≠ scopedSku s B := by
  intro heq
  have hd : (scopedSku s A).data = (scopedSku s B).data := by rw [heq]
  simp only [scopedSku, String.data_append] at hd
  exact h (List.append_cancel_left hd)

lemma scopedSku_ne_of_config (s A B : String)
    (hA : A ∈ akeys MARKETPLACE_CONFIG) (hB : B ∈ akeys MARKETPLACE_CONFIG)
    (hAB : A ≠ B) : scopedSku s A ≠ scopedSku s B := by
  have hA' : A = "EBAY_US" ∨ A = "EBAY_DE" ∨ A = "EBAY_ES" ∨ A = "EBAY_AU" := by
    simpa [akeys, MARKETPLACE_CONFIG] using hA
  have hB' : B = "EBAY_US" ∨ B = "EBAY_DE" ∨ B = "EBAY_ES" ∨ B = "EBAY_AU" := by
    simpa [akeys, MARKETPLACE_CONFIG] using hB
  rcases hA' with rfl | rfl | rfl | rfl <;> rcases hB' with rfl | rfl | rfl | rfl <;>
    first
      | exact absurd rfl hAB
      | exact scopedSku_ne_of_suffix_ne s _ _ (by decide)

lemma validate_empty_truthy (mp : String) (c : MpConfig)
    (h : validate_marketplace_for_publish mp (some c) = []) :
    truthyOS c.policies.fulfillment_policy_id = true ∧
    truthyOS c.policies.payment_policy_id = true ∧
    truthyOS c.policies.return_policy_id = true ∧
    truthyOS c.merchant_location_key = true := by
  by_cases h1 : truthyOS c.policies.fulfillment_policy_id = true <;>
  by_cases h2 : truthyOS c.policies.payment_policy_id = true <;>
  by_cases h3 : truthyOS c.policies.return_policy_id = true <;>
  by_cases h4 : truthyOS c.merchant_location_key = true <;>
    first
      | exact ⟨h1, h2, h3, h4⟩
      | (exfalso
         simp [validate_marketplace_for_publish, h1, h2, h3, h4] at h)

lemma gate_pair (A B : String) (settings : Settings)
    (h : gateMissingConfigs [A, B] settings = []) :
    validate_marketplace_for_publish A (get_marketplace_config A settings) = [] ∧
    validate_marketplace_for_publish B (get_marketplace_config B settings) = [] := by
  rw [gateMissingConfigs_eq] at h
  simp only [List.map_cons, List.map_nil] at h
  have h2 := List.flatten_eq_nil_iff.mp h
  exact ⟨h2 _ (by simp), h2 _ (by simp)⟩

lemma validate_some_config (mp : String) (settings : Settings)
    (h : validate_marketplace_for_publish mp (get_marketplace_config mp settings) = []) :
    ∃ cfg, get_marketplace_config mp settings = some cfg := by
  rcases hc : get_marketplace_config mp settings with _ | cfg
  · rw [hc] at h
    simp [validate_marketplace_for_publish] at h
  · exact ⟨cfg, rfl⟩

lemma ensureLocations_remote_frame (marketplaces : List String)
    (settings : Settings) (remote : Remote) (tr : List CallEv) :
    (ensureLocations marketplaces settings remote tr).2.1.offers = remote.offers ∧
    (ensureLocations marketplaces settings remote tr).2.1.nextOfferId
      = remote.nextOfferId ∧
    (ensureLocations marketplaces settings remote tr).2.1.nextListingId
      = remote.nextListingId := by
  unfold ensureLocations
  suffices h : ∀ (l : List String) (acc : List String × Remote × List CallEv),
      acc.2.1.offers = remote.offers ∧ acc.2.1.nextOfferId = remote.nextOfferId ∧
      acc.2.1.nextListingId = remote.nextListingId →
      (l.foldl (fun (acc : List String × Remote × List CallEv) mp =>
        match get_marketplace_config mp settings with
        | none => acc
        | some cfg =>
          let key := cfg.merchant_location_key.getD
            ("location_" ++ lowerStr cfg.country_code)
          if key ∈ acc.1 then acc
          else if key ∈ acc.2.1.locations then
            (key :: acc.1, acc.2.1, acc.2.2 ++ [CallEv.locationGet key])
          else
            (key :: acc.1,
             { acc.2.1 with locations := key :: acc.2.1.locations },
             acc.2.2 ++ [CallEv.locationGet key, CallEv.locationPost key])) acc).2.1.offers
        = remote.offers ∧
      (l.foldl _ acc).2.1.nextOfferId = remote.nextOfferId ∧
      (l.foldl _ acc).2.1.nextListingId = remote.nextListingId by
    exact h marketplaces ([], remote, tr) ⟨rfl, rfl, rfl⟩
  intro l
  induction l with
  | nil => intro acc hacc; exact hacc
  | cons x xs ih =>
    intro acc hacc
    simp only [List.foldl_cons]
    apply ih
    rcases hc : get_marketplace_config x settings with _ | cfg
    · exact hacc
    · dsimp only
      split
      · exact hacc
      · split
        · exact hacc
        · exact hacc

lemma resolve_user_set (taxonomy : String → String → Option (List (Option String)))
    (cache : CatCache) (draft : Draft) (mp cA : String)
    (h : alookup draft.category_by_marketplace mp = some cA)
    (hne : cA.isEmpty = false) (hld : (leadingDigits cA).isEmpty = false) :
    resolve_offer_category taxonomy cache draft mp
      = .ok (leadingDigits cA) cache [] := by
  simp [resolve_offer_category, h, truthyOS, hne, sanitizeCat, hld]

lemma retry_all_500 (b : Nat → String) (rand : Nat → ℚ) :
    retry_with_backoff (fun k => AttemptOutcome.resp ⟨500, none, b k, none⟩)
      3 2 rand =
      ⟨some ⟨500, none, b 3, none⟩, 3, false,
       [stepDelay (fun k => AttemptOutcome.resp ⟨500, none, b k, none⟩) 2 rand 1,
        stepDelay (fun k => AttemptOutcome.resp ⟨500, none, b k, none⟩) 2 rand 2]⟩ := by
  have hdef : retry_with_backoff
      (fun k => AttemptOutcome.resp ⟨500, none, b k, none⟩) 3 2 rand
      = retryGo (fun k => AttemptOutcome.resp ⟨500, none, b k, none⟩)
        2 rand 1 2 := rfl
  rw [hdef]
  rw [show (2 : Nat) = 1 + 1 from rfl,
    retryGo_retryable _ 2 rand 1 1 (by simp [isRetryable])]
  rw [show (1 : Nat) = 0 + 1 from rfl,
    retryGo_retryable _ 2 rand 2 0 (by simp [isRetryable])]
  simp [retryGo]

lemma publishOffer_all_500 (env : Env) (mp : String) (remote : Remote)
    (oid : Nat) (b : Nat → String)
    (h : ∀ k, env.publishAttempt mp k = .fail 500 (b k)) :
    ∃ sl, publishOffer env mp remote oid =
      (⟨some ⟨500, none, b 3, none⟩, 3, false, sl⟩, remote) := by
  have ho : (fun k => match env.publishAttempt mp k with
      | .ok => AttemptOutcome.resp ⟨200, none, "ok", some remote.nextListingId⟩
      | .fail s bb => AttemptOutcome.resp ⟨s, none, bb, none⟩
      | .timeout => AttemptOutcome.timeout)
      = fun k => AttemptOutcome.resp ⟨500, none, b k, none⟩ := by
    funext k
    rw [h k]
  refine ⟨[stepDelay (fun k => AttemptOutcome.resp ⟨500, none, b k, none⟩) 2
      env.rand 1,
    stepDelay (fun k => AttemptOutcome.resp ⟨500, none, b k, none⟩) 2
      env.rand 2], ?_⟩
  simp only [publishOffer]
  rw [ho, retry_all_500 b env.rand]
  norm_num

lemma publishOffer_ok_first (env : Env) (mp : String) (remote : Remote)
    (oid : Nat) (h : env.publishAttempt mp 1 = .ok) :
    publishOffer env mp remote oid =
      (⟨some ⟨200, none, "ok", some remote.nextListingId⟩, 1, false, []⟩,
       (remote.markPublished oid).2) := by
  have hor : (fun k => match env.publishAttempt mp k with
      | .ok => AttemptOutcome.resp ⟨200, none, "ok", some remote.nextListingId⟩
      | .fail s bb => AttemptOutcome.resp ⟨s, none, bb, none⟩
      | .timeout => AttemptOutcome.timeout) 1
      = AttemptOutcome.resp ⟨200, none, "ok", some remote.nextListingId⟩ := by
    simp only [h]
  have hrun : retry_with_backoff
      (fun k => match env.publishAttempt mp k with
        | .ok => AttemptOutcome.resp ⟨200, none, "ok", some remote.nextListingId⟩
        | .fail s bb => AttemptOutcome.resp ⟨s, none, bb, none⟩
        | .timeout => AttemptOutcome.timeout) 3 2 env.rand
      = ⟨some ⟨200, none, "ok", some remote.nextListingId⟩, 1, false, []⟩ := by
    exact retryGo_nonretryable
      (fun k => match env.publishAttempt mp k with
        | .ok => AttemptOutcome.resp ⟨200, none, "ok", some remote.nextListingId⟩
        | .fail s bb => AttemptOutcome.resp ⟨s, none, bb, none⟩
        | .timeout => AttemptOutcome.timeout)
      2 env.rand 1 2
      ⟨200, none, "ok", some remote.nextListingId⟩ hor (by norm_num)
  simp only [publishOffer]
  rw [hrun]
  norm_num

lemma publishPhase_all_500 (env : Env) (mp : String) (price : ℚ)
    (currency : String) (remote : Remote) (oid : Nat) (tr : List CallEv)
    (b : Nat → String)
    (h : ∀ k, env.publishAttempt mp k = .fail 500 (b k)) :
    publishPhase env mp price currency remote oid tr =
      { entry := { success := false, offer_id := some oid,
                   error := some (if (b 3).isEmpty then "Unknown error"
                     else strTake (b 3) 300),
                   retries := some 2 },
        remote := remote, calls := tr ++ [CallEv.offerPublish oid 3],
        exn := false } := by
  obtain ⟨sl, hpo⟩ := publishOffer_all_500 env mp remote oid b h
  unfold publishPhase
  rw [hpo]
  norm_num

lemma publishPhase_ok_first (env : Env) (mp : String) (price : ℚ)
    (currency : String) (remote : Remote) (oid : Nat) (tr : List CallEv)
    (h : env.publishAttempt mp 1 = .ok) :
    publishPhase env mp price currency remote oid tr =
      { entry := { success := true, offer_id := some oid,
                   listing_id := some remote.nextListingId,
                   price := some (price, currency),
                   listing_url := some (listingUrl env.use_sandbox mp
                     remote.nextListingId),
                   retries := none },
        remote := (remote.markPublished oid).2,
        calls := tr ++ [CallEv.offerPublish oid 1], exn := false } := by
  unfold publishPhase
  rw [publishOffer_ok_first env mp remote oid h]
  norm_num

lemma processMp_fresh (draft : Draft) (settings : Settings)
    (custom_prices : List (String × ℚ)) (env : Env) (st : PubSt)
    (mp : String) (cfg : MpConfig) (cat : String)
    (hexn : st.exn = false)
    (hcfg : get_marketplace_config mp settings = some cfg)
    (hres : resolve_offer_category env.taxonomy st.cache draft mp
      = .ok cat st.cache [])
    (hpf : truthyOS cfg.policies.fulfillment_policy_id = true)
    (hpp : truthyOS cfg.policies.payment_policy_id = true)
    (hpr : truthyOS cfg.policies.return_policy_id = true)
    (hfound : (st.remote.offers.filter
      (fun o => o.sku == scopedSku draft.sku mp)).find?
      (fun o => o.marketplaceId == mp) = none)
    (hhist : alookup draft.multi_marketplace_results mp = none)
    (hcm : env.createMode mp = .normal) :
    processMp draft settings custom_prices env st mp =
      (let ph := publishPhase env mp (computePrice draft custom_prices mp)
        cfg.currency (st.remote.createOffer (scopedSku draft.sku mp) mp).2
        (st.remote.createOffer (scopedSku draft.sku mp) mp).1
        [CallEv.offerCreate (scopedSku draft.sku mp) mp cat]
       { st with
         results := aset st.results mp ph.entry,
         remote := ph.remote,
         trace := st.trace ++ [CallEv.offersGet (scopedSku draft.sku mp) mp]
           ++ ph.calls,
         exn := ph.exn }) := by
  unfold processMp
  rw [hexn]
  simp only [Bool.false_eq_true, if_false]
  rw [hcfg]
  dsimp only
  rw [hres]
  dsimp only
  rw [hpf, hpp, hpr]
  simp only [Bool.and_self, Bool.not_true, Bool.false_eq_true, if_false]
  rw [hfound]
  dsimp only
  unfold historyOrOffer
  rw [hhist]
  dsimp only
  unfold offerPhase createAndPublish
  rw [hcm]
  dsimp only
  simp only [List.nil_append, List.append_nil]

lemma alookup_nil {κ α : Type} [BEq κ] (k : κ) :
    alookup ([] : List (κ × α)) k = none := rfl

lemma alookup_cons_ne {κ α : Type} [BEq κ] (k1 k2 : κ) (v : α)
    (m : List (κ × α)) (h : (k1 == k2) = false) :
    alookup ((k1, v) :: m) k2 = alookup m k2 := by
  simp [alookup, List.find?, h]

lemma alookup_cons_self {κ α : Type} [BEq κ] [LawfulBEq κ] (k : κ) (v : α)
    (m : List (κ × α)) :
    alookup ((k, v) :: m) k = some v := by
  simp [alookup, List.find?]

lemma aset_nil {κ α : Type} [BEq κ] (k : κ) (v : α) :
    aset ([] : List (κ × α)) k v = [(k, v)] := by
  simp [aset, alookup]

lemma aset_miss {κ α : Type} [BEq κ] (m : List (κ × α)) (k : κ) (v : α)
    (h : alookup m k = none) :
    aset m k v = m ++ [(k, v)] := by
  simp [aset, h]

/-! ### C3 — partial failure isolation

The source records, for a marketplace whose publish fails after exhausting
the retry budget, `retries := attempt_num - 1 = max_retries - 1 = 2`, not
`max_retries = 3` (three attempts = two retries).  Everything else in the
claim holds: B succeeds, the draft goes PUBLISHED, `marketplace_listings`
contains only B, and A's failure lives only in
`multi_marketplace_results`. -/

lemma processMp_fresh_500 (draft : Draft) (settings : Settings)
    (custom_prices : List (String × ℚ)) (env : Env) (st : PubSt)
    (mp : String) (cfg : MpConfig) (cat : String) (b : Nat → String)
    (hexn : st.exn = false)
    (hcfg : get_marketplace_config mp settings = some cfg)
    (hres : resolve_offer_category env.taxonomy st.cache draft mp
      = .ok cat st.cache [])
    (hpf : truthyOS cfg.policies.fulfillment_policy_id = true)
    (hpp : truthyOS cfg.policies.payment_policy_id = true)
    (hpr : truthyOS cfg.policies.return_policy_id = true)
    (hfound : (st.remote.offers.filter
      (fun o => o.sku == scopedSku draft.sku mp)).find?
      (fun o => o.marketplaceId == mp) = none)
    (hhist : alookup draft.multi_marketplace_results mp = none)
    (hcm : env.createMode mp = .normal)
    (hfail : ∀ k, env.publishAttempt mp k = .fail 500 (b k)) :
    ∃ tr, processMp draft settings custom_prices env st mp =
      { results := aset st.results mp
          { success := false, offer_id := some st.remote.nextOfferId,
            error := some (if (b 3).isEmpty then "Unknown error"
              else strTake (b 3) 300),
            retries := some 2 },
        remote := { st.remote with
          offers := st.remote.offers ++
            [{ sku := scopedSku draft.sku mp, marketplaceId := mp,
               offerId := st.remote.nextOfferId }],
          nextOfferId := st.remote.nextOfferId + 1 },
        cache := st.cache, trace := tr, exn := false } := by
  refine ⟨st.trace ++ [CallEv.offersGet (scopedSku draft.sku mp) mp] ++
    ([CallEv.offerCreate (scopedSku draft.sku mp) mp cat] ++
     [CallEv.offerPublish
       (st.remote.createOffer (scopedSku draft.sku mp) mp).1 3]), ?_⟩
  rw [processMp_fresh draft settings custom_prices env st mp cfg cat hexn hcfg
    hres hpf hpp hpr hfound hhist hcm]
  rw [publishPhase_all_500 env mp (computePrice draft custom_prices mp)
    cfg.currency ((st.remote.createOffer (scopedSku draft.sku mp) mp).2)
    ((st.remote.createOffer (scopedSku draft.sku mp) mp).1)
    [CallEv.offerCreate (scopedSku draft.sku mp) mp cat] b hfail]
  rfl

lemma processMp_fresh_ok1 (draft : Draft) (settings : Settings)
    (custom_prices : List (String × ℚ)) (env : Env) (st : PubSt)
    (mp : String) (cfg : MpConfig) (cat : String)
    (hexn : st.exn = false)
    (hcfg : get_marketplace_config mp settings = some cfg)
    (hres : resolve_offer_category env.taxonomy st.cache draft mp
      = .ok cat st.cache [])
    (hpf : truthyOS cfg.policies.fulfillment_policy_id = true)
    (hpp : truthyOS cfg.policies.payment_policy_id = true)
    (hpr : truthyOS cfg.policies.return_policy_id = true)
    (hfound : (st.remote.offers.filter
      (fun o => o.sku == scopedSku draft.sku mp)).find?
      (fun o => o.marketplaceId == mp) = none)
    (hhist : alookup draft.multi_marketplace_results mp = none)
    (hcm : env.createMode mp = .normal)
    (hok : env.publishAttempt mp 1 = .ok) :
    ∃ r2 tr, processMp draft settings custom_prices env st mp =
      { results := aset st.results mp
          { success := true, offer_id := some st.remote.nextOfferId,
            listing_id := some st.remote.nextListingId,
            price := some (computePrice draft custom_prices mp, cfg.currency),
            listing_url := some (listingUrl env.use_sandbox mp
              st.remote.nextListingId),
            retries := none },
        remote := r2, cache := st.cache, trace := tr, exn := false } := by
  refine ⟨((st.remote.createOffer (scopedSku draft.sku mp) mp).2.markPublished
      (st.remote.createOffer (scopedSku draft.sku mp) mp).1).2,
    st.trace ++ [CallEv.offersGet (scopedSku draft.sku mp) mp] ++
    ([CallEv.offerCreate (scopedSku draft.sku mp) mp cat] ++
     [CallEv.offerPublish
       (st.remote.createOffer (scopedSku draft.sku mp) mp).1 1]), ?_⟩
  rw [processMp_fresh draft settings custom_prices env st mp cfg cat hexn hcfg
    hres hpf hpp hpr hfound hhist hcm]
  rw [publishPhase_ok_first env mp (computePrice draft custom_prices mp)
    cfg.currency ((st.remote.createOffer (scopedSku draft.sku mp) mp).2)
    ((st.remote.createOffer (scopedSku draft.sku mp) mp).1)
    [CallEv.offerCreate (scopedSku draft.sku mp) mp cat] hok]
  rfl

/-- **C3 (amended).** For every publish call over exactly two marketplaces
`A ≠ B` (valid configs, user-set numeric categories, clean remote, no prior
history) where A's offer-publish returns HTTP 500 on every attempt and B's
succeeds: the result map holds a successful B entry and a failed A entry
whose `retries` field equals `maxRetries - 1 = 2` (the source stores
`attempt_num - 1`, not `maxRetries` as the claim stated); the draft's status
becomes PUBLISHED, `marketplace_listings` contains exactly B, and A's
failure is recorded only in `multi_marketplace_results`. -/
theorem publish_partial_failure_isolated (A B : String) (draft : Draft)
    (custom_prices : List (String × ℚ)) (settings : Settings) (env : Env)
    (remote : Remote) (cache : CatCache) (cA cB : String) (bA : Nat → String)
    (out : PublishResult)
    (hAB : A ≠ B)
    (htitle : draft.title.isEmpty = false)
    (himg : draft.image_urls.isEmpty = false)
    (hconn : env.connected = true)
    (hgate : gateMissingConfigs [A, B] settings = [])
    (hcatA : alookup draft.category_by_marketplace A = some cA)
    (hcatAne : cA.isEmpty = false)
    (hcatAld : (leadingDigits cA).isEmpty = false)
    (hcatB : alookup draft.category_by_marketplace B = some cB)
    (hcatBne : cB.isEmpty = false)
    (hcatBld : (leadingDigits cB).isEmpty = false)
    (hrem : remote.offers = [])
    (hhist : draft.multi_marketplace_results = [])
    (hA5 : ∀ k, env.publishAttempt A k = .fail 500 (bA k))
    (hB1 : env.publishAttempt B 1 = .ok)
    (hcmA : env.createMode A = .normal)
    (hcmB : env.createMode B = .normal)
    (hout : publish_draft_multi_marketplace (some draft) [A, B] custom_prices
      settings env remote cache = out) :
    out.abortStatus = none ∧
    out.raisedExn = false ∧
    (∃ eB, alookup out.results B = some eB ∧ eB.success = true) ∧
    (∃ eA, alookup out.results A = some eA ∧ eA.success = false ∧
      eA.retries = some (3 - 1) ∧
      alookup out.draft.multi_marketplace_results A = some eA) ∧
    out.draft.status = "PUBLISHED" ∧
    akeys out.draft.marketplace_listings = [B] := by
  subst hout
  -- configs and publish-readiness from the gate
  obtain ⟨hvalA, hvalB⟩ := gate_pair A B settings hgate
  obtain ⟨cfgA, hcfgA⟩ := validate_some_config A settings hvalA
  obtain ⟨cfgB, hcfgB⟩ := validate_some_config B settings hvalB
  have htrA := validate_empty_truthy A cfgA (by rw [hcfgA] at hvalA; exact hvalA)
  have htrB := validate_empty_truthy B cfgB (by rw [hcfgB] at hvalB; exact hvalB)
  -- distinct scoped SKUs and distinct result keys
  have hdomA := get_marketplace_config_domain A settings cfgA hcfgA
  have hdomB := get_marketplace_config_domain B settings cfgB hcfgB
  have hskuBA : (scopedSku draft.sku A == scopedSku draft.sku B) = false := by
    rw [beq_eq_false_iff_ne]
    exact scopedSku_ne_of_config draft.sku A B hdomA hdomB hAB
  have hABbeq : (A == B) = false := by rw [beq_eq_false_iff_ne]; exact hAB
  have hloc := ensureLocations_remote_frame [A, B] settings remote
    [CallEv.inventoryPut (scopedSku draft.sku A) A,
     CallEv.inventoryPut (scopedSku draft.sku B) B]
  -- reduce the orchestrator to the step-3 fold
  simp only [publish_draft_multi_marketplace, htitle, himg,
    Bool.false_eq_true, if_false, List.append_nil, List.nil_append,
    List.isEmpty_nil, Bool.not_true, Bool.not_false, if_true, hgate, hconn,
    List.map_cons, List.map_nil, List.foldl_cons, List.foldl_nil]
  generalize hE : ensureLocations [A, B] settings remote
    [CallEv.inventoryPut (scopedSku draft.sku A) A,
     CallEv.inventoryPut (scopedSku draft.sku B) B] = E
  generalize hR0g : E.2.1 = R0
  generalize hT0g : E.2.2 = T0
  rw [hE, hR0g] at hloc
  have hoffR0 : R0.offers = [] := hloc.1.trans hrem
  -- step A: fresh create, publish fails 500/500/500
  obtain ⟨trA, hstA⟩ := processMp_fresh_500 draft settings custom_prices env
    { results := [], remote := R0, cache := cache, trace := T0 } A cfgA
    (leadingDigits cA) bA rfl hcfgA
    (resolve_user_set env.taxonomy cache draft A cA hcatA hcatAne hcatAld)
    htrA.1 htrA.2.1 htrA.2.2.1
    (show ((R0.offers.filter
        (fun o => o.sku == scopedSku draft.sku A)).find?
        (fun o => o.marketplaceId == A)) = none by
      rw [hoffR0]; rfl)
    (by rw [hhist]; rfl) hcmA hA5
  dsimp only at hstA
  rw [aset_nil] at hstA
  rw [hstA]
  -- step B: fresh create on the post-A remote, publish succeeds first try
  obtain ⟨r2, trB, hstB⟩ := processMp_fresh_ok1 draft settings custom_prices env
    { results := [(A,
        { success := false, offer_id := some R0.nextOfferId,
          error := some (if (bA 3).isEmpty then "Unknown error"
            else strTake (bA 3) 300),
          retries := some 2 })],
      remote := { R0 with
        offers := R0.offers ++
          [{ sku := scopedSku draft.sku A, marketplaceId := A,
             offerId := R0.nextOfferId }],
        nextOfferId := R0.nextOfferId + 1 },
      cache := cache, trace := trA, exn := false } B cfgB
    (leadingDigits cB) rfl hcfgB
    (resolve_user_set env.taxonomy cache draft B cB hcatB hcatBne hcatBld)
    htrB.1 htrB.2.1 htrB.2.2.1
    (show (((R0.offers ++
        [({ sku := scopedSku draft.sku A, marketplaceId := A,
            offerId := R0.nextOfferId } : RemoteOffer)]).filter
        (fun (o : RemoteOffer) => o.sku == scopedSku draft.sku B)).find?
        (fun (o : RemoteOffer) => o.marketplaceId == B)) = none by
      rw [hoffR0]
      simp [List.filter_cons, List.filter_nil, hskuBA])
    (by rw [hhist]; rfl) hcmB hB1
  dsimp only at hstB
  rw [aset_miss _ _ _ (by rw [alookup_cons_ne A B _ _ hABbeq]; rfl),
    List.singleton_append] at hstB
  rw [hstB]
  -- read off every conjunct from the final literal state
  have hlookB : ∀ (x y : MpResult), alookup [(A, x), (B, y)] B = some y := by
    intro x y
    rw [alookup_cons_ne A B _ _ hABbeq]
    exact alookup_cons_self B _ _
  have hlookA : ∀ (x y : MpResult), alookup [(A, x), (B, y)] A = some x := by
    intro x y
    exact alookup_cons_self A _ _
  exact ⟨rfl, rfl, ⟨_, hlookB _ _, rfl⟩,
    ⟨_, hlookA _ _, rfl, rfl, hlookA _ _⟩, rfl, rfl⟩

/-- Concrete settings for the partial-failure scenario: both marketplaces
fully configured. -/
def c3Settings : Settings :=
  { marketplaces :=
    [("EBAY_US", { fulfillment_policy_id := some "F1",
                   payment_policy_id := some "P1",
                   return_policy_id := some "R1",
                   merchant_location_key := some "loc_us" }),
     ("EBAY_DE", { fulfillment_policy_id := some "F2",
                   payment_policy_id := some "P2",
                   return_policy_id := some "R2",
                   merchant_location_key := some "loc_de" })] }

/-- Concrete draft for the partial-failure scenario: user-set numeric
categories for both marketplaces. -/
def c3Draft : Draft :=
  { id := "d1", title := "Vintage wheels", image_urls := ["a.jpg"],
    sku := "VSB-1", item_type := "WHL",
    category_by_marketplace :=
      [("EBAY_US", "63632 - Wheels"), ("EBAY_DE", "159043")] }

/-- Concrete environment for the partial-failure scenario: every publish
attempt against EBAY_DE returns HTTP 500, EBAY_US accepts immediately. -/
def c3Env : Env :=
  { publishAttempt := fun mp _ =>
      if mp == "EBAY_DE" then PubAttempt.fail 500 "boom" else PubAttempt.ok }

/-- **C3 counterexample (retries field).** In the concrete two-marketplace
publish where EBAY_DE's publish fails with HTTP 500 on all three attempts,
the recorded entry carries `retries = some 2` (`attempt_num - 1`), not
`retries = some 3 (= max_retries)` as the claim's "after 3 retry attempts
... retries: 3" reading would require. -/
theorem publish_retries_not_max_retries :
    ∃ e, alookup (publish_draft_multi_marketplace (some c3Draft)
        ["EBAY_DE", "EBAY_US"] [] c3Settings c3Env {} []).results "EBAY_DE"
      = some e ∧ e.success = false ∧ e.retries = some 2 ∧ e.retries ≠ some 3 := by
  refine ⟨_, rfl, rfl, rfl, by decide⟩

/-- Witness for `publish_partial_failure_isolated` at the concrete
scenario. -/
theorem publish_partial_failure_witness :
    (publish_draft_multi_marketplace (some c3Draft) ["EBAY_DE", "EBAY_US"] []
      c3Settings c3Env {} []).abortStatus = none ∧
    (publish_draft_multi_marketplace (some c3Draft) ["EBAY_DE", "EBAY_US"] []
      c3Settings c3Env {} []).raisedExn = false ∧
    (∃ eB, alookup (publish_draft_multi_marketplace (some c3Draft)
        ["EBAY_DE", "EBAY_US"] [] c3Settings c3Env {} []).results "EBAY_US"
      = some eB ∧ eB.success = true) ∧
    (∃ eA, alookup (publish_draft_multi_marketplace (some c3Draft)
        ["EBAY_DE", "EBAY_US"] [] c3Settings c3Env {} []).results "EBAY_DE"
      = some eA ∧ eA.success = false ∧ eA.retries = some (3 - 1) ∧
      alookup (publish_draft_multi_marketplace (some c3Draft)
          ["EBAY_DE", "EBAY_US"] [] c3Settings c3Env {}
          []).draft.multi_marketplace_results "EBAY_DE" = some eA) ∧
    (publish_draft_multi_marketplace (some c3Draft) ["EBAY_DE", "EBAY_US"] []
      c3Settings c3Env {} []).draft.status = "PUBLISHED" ∧
    akeys (publish_draft_multi_marketplace (some c3Draft)
      ["EBAY_DE", "EBAY_US"] [] c3Settings c3Env {}
      []).draft.marketplace_listings = ["EBAY_US"] :=
  publish_partial_failure_isolated "EBAY_DE" "EBAY_US" c3Draft [] c3Settings
    c3Env {} [] "159043" "63632 - Wheels" (fun _ => "boom") _
    (by decide) rfl rfl rfl rfl rfl rfl rfl rfl rfl rfl rfl rfl
    (fun _ => rfl) rfl rfl rfl rfl

/-! ### C2 — idempotency of publish

A second publish over an unchanged draft/remote finds every offer already
published (the offer query returns it with a live listing id) and
short-circuits to success, reusing the stored offer and listing ids: the
listings map is reproduced exactly and no offer-create or offer-publish
call is spent. -/

/-- The outbound calls that create a remote offer or consume publish quota. -/
def createsOfferOrListing : CallEv → Bool
  | .offerCreate _ _ _ => true
  | .offerPublish _ _ => true
  | _ => false

/-- One loop iteration when the offer query returns an already-published
offer (a live listing id): the short-circuit success of server.py
4788-4806 — no history check, no reconciliation, no publish call. -/
lemma processMp_published (draft : Draft) (settings : Settings)
    (custom_prices : List (String × ℚ)) (env : Env) (st : PubSt)
    (mp : String) (cfg : MpConfig) (cat : String) (o : RemoteOffer) (lid : Nat)
    (hexn : st.exn = false)
    (hcfg : get_marketplace_config mp settings = some cfg)
    (hres : resolve_offer_category env.taxonomy st.cache draft mp
      = .ok cat st.cache [])
    (hpf : truthyOS cfg.policies.fulfillment_policy_id = true)
    (hpp : truthyOS cfg.policies.payment_policy_id = true)
    (hpr : truthyOS cfg.policies.return_policy_id = true)
    (hfound : (st.remote.offers.filter
      (fun o => o.sku == scopedSku draft.sku mp)).find?
      (fun o => o.marketplaceId == mp) = some o)
    (hlid : o.listingId = some lid) :
    processMp draft settings custom_prices env st mp =
      { st with
        results := aset st.results mp
          { success := true, offer_id := some o.offerId,
            listing_id := some lid,
            price := some (computePrice draft custom_prices mp, cfg.currency),
            listing_url := some (listingUrl env.use_sandbox mp lid),
            note := some "Already published (skipped)" },
        trace := st.trace ++ [CallEv.offersGet (scopedSku draft.sku mp) mp],
        exn := false } := by
  unfold processMp
  rw [hexn]
  simp only [Bool.false_eq_true, if_false]
  rw [hcfg]
  dsimp only
  rw [hres]
  dsimp only
  rw [hpf, hpp, hpr]
  simp only [Bool.and_self, Bool.not_true, Bool.false_eq_true, if_false]
  rw [hfound]
  dsimp only
  rw [hlid]
  dsimp only
  simp only [List.nil_append, List.append_nil]

/-- `processMp_fresh_ok1` with the resulting remote spelled out: the fresh
offer is appended unpublished and then `markPublished` maps over the whole
store flipping the matching offer id. -/
lemma processMp_fresh_pub (draft : Draft) (settings : Settings)
    (custom_prices : List (String × ℚ)) (env : Env) (st : PubSt)
    (mp : String) (cfg : MpConfig) (cat : String)
    (hexn : st.exn = false)
    (hcfg : get_marketplace_config mp settings = some cfg)
    (hres : resolve_offer_category env.taxonomy st.cache draft mp
      = .ok cat st.cache [])
    (hpf : truthyOS cfg.policies.fulfillment_policy_id = true)
    (hpp : truthyOS cfg.policies.payment_policy_id = true)
    (hpr : truthyOS cfg.policies.return_policy_id = true)
    (hfound : (st.remote.offers.filter
      (fun o => o.sku == scopedSku draft.sku mp)).find?
      (fun o => o.marketplaceId == mp) = none)
    (hhist : alookup draft.multi_marketplace_results mp = none)
    (hcm : env.createMode mp = .normal)
    (hok : env.publishAttempt mp 1 = .ok) :
    ∃ tr, processMp draft settings custom_prices env st mp =
      { results := aset st.results mp
          { success := true, offer_id := some st.remote.nextOfferId,
            listing_id := some st.remote.nextListingId,
            price := some (computePrice draft custom_prices mp, cfg.currency),
            listing_url := some (listingUrl env.use_sandbox mp
              st.remote.nextListingId),
            retries := none },
        remote := { st.remote with
          offers := (st.remote.offers ++
            [({ sku := scopedSku draft.sku mp, marketplaceId := mp,
                offerId := st.remote.nextOfferId } : RemoteOffer)]).map
            (fun (o : RemoteOffer) =>
              if o.offerId == st.remote.nextOfferId
              then { o with listingId := some st.remote.nextListingId } else o),
          nextOfferId := st.remote.nextOfferId + 1,
          nextListingId := st.remote.nextListingId + 1 },
        cache := st.cache, trace := tr, exn := false } := by
  refine ⟨st.trace ++ [CallEv.offersGet (scopedSku draft.sku mp) mp] ++
    ([CallEv.offerCreate (scopedSku draft.sku mp) mp cat] ++
     [CallEv.offerPublish
       (st.remote.createOffer (scopedSku draft.sku mp) mp).1 1]), ?_⟩
  rw [processMp_fresh draft settings custom_prices env st mp cfg cat hexn hcfg
    hres hpf hpp hpr hfound hhist hcm]
  rw [publishPhase_ok_first env mp (computePrice draft custom_prices mp)
    cfg.currency ((st.remote.createOffer (scopedSku draft.sku mp) mp).2)
    ((st.remote.createOffer (scopedSku draft.sku mp) mp).1)
    [CallEv.offerCreate (scopedSku draft.sku mp) mp cat] hok]
  rfl

lemma ensureLocations_trace_mem (mps : List String) (settings : Settings)
    (r : Remote) (tr : List CallEv) :
    ∀ e ∈ (ensureLocations mps settings r tr).2.2,
      e ∈ tr ∨ (∃ k, e = CallEv.locationGet k) ∨
        (∃ k, e = CallEv.locationPost k) := by
  unfold ensureLocations
  suffices h : ∀ (l : List String) (acc : List String × Remote × List CallEv),
      (∀ e ∈ acc.2.2, e ∈ tr ∨ (∃ k, e = CallEv.locationGet k) ∨
        (∃ k, e = CallEv.locationPost k)) →
      ∀ e ∈ (l.foldl (fun (acc : List String × Remote × List CallEv) mp =>
        match get_marketplace_config mp settings with
        | none => acc
        | some cfg =>
          let key := cfg.merchant_location_key.getD
            ("location_" ++ lowerStr cfg.country_code)
          if key ∈ acc.1 then acc
          else if key ∈ acc.2.1.locations then
            (key :: acc.1, acc.2.1, acc.2.2 ++ [CallEv.locationGet key])
          else
            (key :: acc.1,
             { acc.2.1 with locations := key :: acc.2.1.locations },
             acc.2.2 ++ [CallEv.locationGet key, CallEv.locationPost key]))
        acc).2.2,
        e ∈ tr ∨ (∃ k, e = CallEv.locationGet k) ∨
          (∃ k, e = CallEv.locationPost k) by
    exact h mps ([], r, tr) (fun e he => Or.inl he)
  intro l
  induction l with
  | nil => intro acc hacc; exact hacc
  | cons x xs ih =>
    intro acc hacc
    simp only [List.foldl_cons]
    apply ih
    rcases hc : get_marketplace_config x settings with _ | cfg
    · exact hacc
    · dsimp only
      split
      · exact hacc
      · split
        · intro e he
          rcases List.mem_append.mp he with h1 | h2
          · exact hacc e h1
          · exact Or.inr (Or.inl ⟨_, List.mem_singleton.mp h2⟩)
        · intro e he
          rcases List.mem_append.mp he with h1 | h2
          · exact hacc e h1
          · rcases List.mem_cons.mp h2 with h3 | h4
            · exact Or.inr (Or.inl ⟨_, h3⟩)
            · exact Or.inr (Or.inr ⟨_, List.mem_singleton.mp h4⟩)

lemma ensureLocations_key_mem (mps : List String) (settings : Settings)
    (r : Remote) (tr : List CallEv) (mp : String) (cfg : MpConfig)
    (hmp : mp ∈ mps) (hcfg : get_marketplace_config mp settings = some cfg) :
    cfg.merchant_location_key.getD ("location_" ++ lowerStr cfg.country_code)
      ∈ (ensureLocations mps settings r tr).2.1.locations := by
  unfold ensureLocations
  suffices h : ∀ (l : List String) (acc : List String × Remote × List CallEv),
      (∀ k ∈ acc.1, k ∈ acc.2.1.locations) →
      (mp ∈ l ∨ cfg.merchant_location_key.getD
        ("location_" ++ lowerStr cfg.country_code) ∈ acc.2.1.locations) →
      cfg.merchant_location_key.getD ("location_" ++ lowerStr cfg.country_code)
        ∈ ((l.foldl (fun (acc : List String × Remote × List CallEv) mp =>
          match get_marketplace_config mp settings with
          | none => acc
          | some cfg =>
            let key := cfg.merchant_location_key.getD
              ("location_" ++ lowerStr cfg.country_code)
            if key ∈ acc.1 then acc
            else if key ∈ acc.2.1.locations then
              (key :: acc.1, acc.2.1, acc.2.2 ++ [CallEv.locationGet key])
            else
              (key :: acc.1,
               { acc.2.1 with locations := key :: acc.2.1.locations },
               acc.2.2 ++ [CallEv.locationGet key, CallEv.locationPost key]))
          acc).2.1).locations by
    exact h mps ([], r, tr) (by intro k hk; cases hk) (Or.inl hmp)
  intro l
  induction l with
  | nil =>
    intro acc _ hgoal
    rcases hgoal with h | h
    · cases h
    · exact h
  | cons x xs ih =>
    intro acc hinv hgoal
    simp only [List.foldl_cons]
    apply ih
    · -- the seen-keys invariant is preserved by one step
      rcases hc : get_marketplace_config x settings with _ | cfgx
      · exact hinv
      · dsimp only
        split
        · exact hinv
        · split
          · rename_i hinloc
            intro k hk
            rcases List.mem_cons.mp hk with rfl | hk2
            · exact hinloc
            · exact hinv k hk2
          · intro k hk
            rcases List.mem_cons.mp hk with rfl | hk2
            · exact List.mem_cons_self _ _
            · exact List.mem_cons_of_mem _ (hinv k hk2)
    · -- the target key is pending in the tail or already present
      rcases hgoal with hmem | hin
      · rcases List.mem_cons.mp hmem with heq | hmemxs
        · subst heq
          refine Or.inr ?_
          rw [hcfg]
          dsimp only
          split
          · rename_i hseen
            exact hinv _ hseen
          · split
            · rename_i hinloc
              exact hinloc
            · exact List.mem_cons_self _ _
        · exact Or.inl hmemxs
      · refine Or.inr ?_
        rcases hc : get_marketplace_config x settings with _ | cfgx
        · exact hin
        · dsimp only
          split
          · exact hin
          · split
            · exact hin
            · exact List.mem_cons_of_mem _ hin

lemma ensureLocations_remote_id (mps : List String) (settings : Settings)
    (r : Remote) (tr : List CallEv)
    (h : ∀ mp ∈ mps, ∀ cfg, get_marketplace_config mp settings = some cfg →
      cfg.merchant_location_key.getD ("location_" ++ lowerStr cfg.country_code)
        ∈ r.locations) :
    (ensureLocations mps settings r tr).2.1 = r := by
  unfold ensureLocations
  suffices hs : ∀ (l : List String) (acc : List String × Remote × List CallEv),
      acc.2.1 = r →
      (∀ mp ∈ l, ∀ cfg, get_marketplace_config mp settings = some cfg →
        cfg.merchant_location_key.getD
          ("location_" ++ lowerStr cfg.country_code) ∈ r.locations) →
      (l.foldl (fun (acc : List String × Remote × List CallEv) mp =>
        match get_marketplace_config mp settings with
        | none => acc
        | some cfg =>
          let key := cfg.merchant_location_key.getD
            ("location_" ++ lowerStr cfg.country_code)
          if key ∈ acc.1 then acc
          else if key ∈ acc.2.1.locations then
            (key :: acc.1, acc.2.1, acc.2.2 ++ [CallEv.locationGet key])
          else
            (key :: acc.1,
             { acc.2.1 with locations := key :: acc.2.1.locations },
             acc.2.2 ++ [CallEv.locationGet key, CallEv.locationPost key]))
        acc).2.1 = r by
    exact hs mps ([], r, tr) rfl h
  intro l
  induction l with
  | nil => intro acc hacc _; exact hacc
  | cons x xs ih =>
    intro acc hacc hl
    simp only [List.foldl_cons]
    apply ih
    · rcases hc : get_marketplace_config x settings with _ | cfgx
      · exact hacc
      · dsimp only
        split
        · exact hacc
        · split
          · exact hacc
          · rename_i hnotin
            exfalso
            apply hnotin
            rw [hacc]
            exact hl x (List.mem_cons_self x xs) cfgx hc
    · intro m hm c hcm
      exact hl m (List.mem_cons_of_mem x hm) c hcm

/-- **C2.** Publishing the same draft over the same two marketplaces twice,
with no intervening state change (the second call starts from the first
call's draft, remote state and category cache), reproduces the same
`marketplace_listings` map with the same listing ids, leaves the remote
state completely unchanged, and spends no offer-create or offer-publish
call: every offer the second call's offer query finds is already published
(carries a live listing id) and short-circuits to a success result reusing
the stored offer id and listing id. -/
theorem publish_twice_idempotent (A B : String) (draft : Draft)
    (custom_prices : List (String × ℚ)) (settings : Settings) (env : Env)
    (remote : Remote) (cache : CatCache) (cA cB : String)
    (out1 out2 : PublishResult)
    (hAB : A ≠ B)
    (htitle : draft.title.isEmpty = false)
    (himg : draft.image_urls.isEmpty = false)
    (hconn : env.connected = true)
    (hgate : gateMissingConfigs [A, B] settings = [])
    (hcatA : alookup draft.category_by_marketplace A = some cA)
    (hcatAne : cA.isEmpty = false)
    (hcatAld : (leadingDigits cA).isEmpty = false)
    (hcatB : alookup draft.category_by_marketplace B = some cB)
    (hcatBne : cB.isEmpty = false)
    (hcatBld : (leadingDigits cB).isEmpty = false)
    (hrem : remote.offers = [])
    (hhist : draft.multi_marketplace_results = [])
    (hA1 : env.publishAttempt A 1 = .ok)
    (hB1 : env.publishAttempt B 1 = .ok)
    (hcmA : env.createMode A = .normal)
    (hcmB : env.createMode B = .normal)
    (hout1 : publish_draft_multi_marketplace (some draft) [A, B] custom_prices
      settings env remote cache = out1)
    (hout2 : publish_draft_multi_marketplace (some out1.draft) [A, B]
      custom_prices settings env out1.remote out1.cache = out2) :
    out2.draft.marketplace_listings = out1.draft.marketplace_listings ∧
    out2.remote = out1.remote ∧
    akeys out1.draft.marketplace_listings = [A, B] ∧
    out1.draft.status = "PUBLISHED" ∧
    (∀ c ∈ out2.trace, createsOfferOrListing c = false) := by
  subst hout2
  subst hout1
  -- configs and publish-readiness from the gate
  obtain ⟨hvalA, hvalB⟩ := gate_pair A B settings hgate
  obtain ⟨cfgA, hcfgA⟩ := validate_some_config A settings hvalA
  obtain ⟨cfgB, hcfgB⟩ := validate_some_config B settings hvalB
  have htrA := validate_empty_truthy A cfgA (by rw [hcfgA] at hvalA; exact hvalA)
  have htrB := validate_empty_truthy B cfgB (by rw [hcfgB] at hvalB; exact hvalB)
  -- distinct scoped SKUs and distinct result keys
  have hdomA := get_marketplace_config_domain A settings cfgA hcfgA
  have hdomB := get_marketplace_config_domain B settings cfgB hcfgB
  have hskuBA : (scopedSku draft.sku A == scopedSku draft.sku B) = false := by
    rw [beq_eq_false_iff_ne]
    exact scopedSku_ne_of_config draft.sku A B hdomA hdomB hAB
  have hskuAB : (scopedSku draft.sku B == scopedSku draft.sku A) = false := by
    rw [beq_eq_false_iff_ne]
    exact Ne.symm (scopedSku_ne_of_config draft.sku A B hdomA hdomB hAB)
  have hABbeq : (A == B) = false := by rw [beq_eq_false_iff_ne]; exact hAB
  have hloc := ensureLocations_remote_frame [A, B] settings remote
    [CallEv.inventoryPut (scopedSku draft.sku A) A,
     CallEv.inventoryPut (scopedSku draft.sku B) B]
  have hkeyA := ensureLocations_key_mem [A, B] settings remote
    [CallEv.inventoryPut (scopedSku draft.sku A) A,
     CallEv.inventoryPut (scopedSku draft.sku B) B] A cfgA (by simp) hcfgA
  have hkeyB := ensureLocations_key_mem [A, B] settings remote
    [CallEv.inventoryPut (scopedSku draft.sku A) A,
     CallEv.inventoryPut (scopedSku draft.sku B) B] B cfgB (by simp) hcfgB
  -- reduce both orchestrator calls to their step-3 folds
  simp only [publish_draft_multi_marketplace, htitle, himg,
    Bool.false_eq_true, if_false, List.append_nil, List.nil_append,
    List.isEmpty_nil, Bool.not_true, Bool.not_false, if_true, hgate, hconn,
    List.map_cons, List.map_nil, List.foldl_cons, List.foldl_nil]
  generalize hE : ensureLocations [A, B] settings remote
    [CallEv.inventoryPut (scopedSku draft.sku A) A,
     CallEv.inventoryPut (scopedSku draft.sku B) B] = E
  generalize hR0g : E.2.1 = R0
  generalize hT0g : E.2.2 = T0
  rw [hE, hR0g] at hloc hkeyA hkeyB
  have hoffR0 : R0.offers = [] := hloc.1.trans hrem
  have hne1 : (R0.nextOfferId == R0.nextOfferId + 1) = false := by
    rw [beq_eq_false_iff_ne]; omega
  -- call 1, step A: fresh create, publish succeeds first try
  obtain ⟨trA, hstA⟩ := processMp_fresh_pub draft settings custom_prices env
    { results := [], remote := R0, cache := cache, trace := T0 } A cfgA
    (leadingDigits cA) rfl hcfgA
    (resolve_user_set env.taxonomy cache draft A cA hcatA hcatAne hcatAld)
    htrA.1 htrA.2.1 htrA.2.2.1
    (show ((R0.offers.filter
        (fun o => o.sku == scopedSku draft.sku A)).find?
        (fun o => o.marketplaceId == A)) = none by
      rw [hoffR0]; rfl)
    (by rw [hhist]; rfl) hcmA hA1
  dsimp only at hstA
  rw [hoffR0] at hstA
  simp only [List.nil_append, List.map_cons, List.map_nil, beq_self_eq_true,
    eq_self_iff_true, if_true] at hstA
  rw [aset_nil] at hstA
  rw [hstA]
  -- call 1, step B: fresh create on the post-A remote, publish succeeds
  obtain ⟨trB, hstB⟩ := processMp_fresh_pub draft settings custom_prices env
    { results :=
        [(A, { success := true, offer_id := some R0.nextOfferId,
               listing_id := some R0.nextListingId,
               price := some (computePrice draft custom_prices A,
                 cfgA.currency),
               listing_url := some (listingUrl env.use_sandbox A
                 R0.nextListingId),
               retries := none })],
      remote := { R0 with
        offers := [{ sku := scopedSku draft.sku A, marketplaceId := A,
                     offerId := R0.nextOfferId,
                     listingId := some R0.nextListingId }],
        nextOfferId := R0.nextOfferId + 1,
        nextListingId := R0.nextListingId + 1 },
      cache := cache, trace := trA, exn := false } B cfgB
    (leadingDigits cB) rfl hcfgB
    (resolve_user_set env.taxonomy cache draft B cB hcatB hcatBne hcatBld)
    htrB.1 htrB.2.1 htrB.2.2.1
    (show ((([({ sku := scopedSku draft.sku A, marketplaceId := A,
                 offerId := R0.nextOfferId,
                 listingId := some R0.nextListingId } : RemoteOffer)]).filter
        (fun (o : RemoteOffer) => o.sku == scopedSku draft.sku B)).find?
        (fun (o : RemoteOffer) => o.marketplaceId == B)) = none by
      simp [List.filter_cons, List.filter_nil, hskuBA])
    (by rw [hhist]; rfl) hcmB hB1
  dsimp only at hstB
  simp only [List.singleton_append, List.map_cons, List.map_nil, hne1,
    Bool.false_eq_true, if_false, beq_self_eq_true, eq_self_iff_true,
    if_true] at hstB
  rw [aset_miss _ _ _ (by rw [alookup_cons_ne A B _ _ hABbeq]; rfl),
    List.singleton_append] at hstB
  rw [hstB]
  -- collapse call 1 to its literal result and expose call 2
  dsimp only
  simp only [Bool.false_eq_true, if_false, List.filter_cons, List.filter_nil,
    eq_self_iff_true, if_true, List.map_cons, List.map_nil, htitle, himg,
    Bool.not_true, Bool.not_false, List.isEmpty_nil, List.append_nil,
    List.nil_append]
  -- name the first call's updated draft
  generalize hd1 : ({ draft with
    multi_marketplace_results :=
      [(A, { success := true, offer_id := some R0.nextOfferId,
             listing_id := some R0.nextListingId,
             price := some (computePrice draft custom_prices A,
               cfgA.currency),
             listing_url := some (listingUrl env.use_sandbox A
               R0.nextListingId),
             retries := none }),
       (B, { success := true, offer_id := some (R0.nextOfferId + 1),
             listing_id := some (R0.nextListingId + 1),
             price := some (computePrice draft custom_prices B,
               cfgB.currency),
             listing_url := some (listingUrl env.use_sandbox B
               (R0.nextListingId + 1)),
             retries := none })],
    marketplace_listings :=
      [(A, { sku := scopedSku draft.sku A,
             offer_id := some R0.nextOfferId,
             listing_id := some R0.nextListingId,
             listing_url := some (listingUrl env.use_sandbox A
               R0.nextListingId) }),
       (B, { sku := scopedSku draft.sku B,
             offer_id := some (R0.nextOfferId + 1),
             listing_id := some (R0.nextListingId + 1),
             listing_url := some (listingUrl env.use_sandbox B
               (R0.nextListingId + 1)) })],
    status := "PUBLISHED",
    listing_id := some R0.nextListingId,
    offer_id := some R0.nextOfferId } : Draft) = d1
  have hsku1 : d1.sku = draft.sku := by rw [← hd1]
  have hcbmA : alookup d1.category_by_marketplace A = some cA := by
    rw [← hd1]; exact hcatA
  have hcbmB : alookup d1.category_by_marketplace B = some cB := by
    rw [← hd1]; exact hcatB
  -- the second location pass finds every key present and changes nothing
  generalize hE2 : ensureLocations [A, B] settings
    ({ offers :=
        [{ sku := scopedSku draft.sku A, marketplaceId := A,
           offerId := R0.nextOfferId, listingId := some R0.nextListingId },
         { sku := scopedSku draft.sku B, marketplaceId := B,
           offerId := R0.nextOfferId + 1,
           listingId := some (R0.nextListingId + 1) }],
       locations := R0.locations, nextOfferId := R0.nextOfferId + 1 + 1,
       nextListingId := R0.nextListingId + 1 + 1 } : Remote)
    [CallEv.inventoryPut (scopedSku draft.sku A) A,
     CallEv.inventoryPut (scopedSku draft.sku B) B] = E2
  have hnoop : E2.2.1 =
      ({ offers :=
          [{ sku := scopedSku draft.sku A, marketplaceId := A,
             offerId := R0.nextOfferId, listingId := some R0.nextListingId },
           { sku := scopedSku draft.sku B, marketplaceId := B,
             offerId := R0.nextOfferId + 1,
             listingId := some (R0.nextListingId + 1) }],
         locations := R0.locations, nextOfferId := R0.nextOfferId + 1 + 1,
         nextListingId := R0.nextListingId + 1 + 1 } : Remote) := by
    rw [← hE2]
    refine ensureLocations_remote_id [A, B] settings _ _ ?_
    intro m hm c hcm
    simp only [List.mem_cons, List.mem_singleton, List.not_mem_nil,
      or_false] at hm
    rcases hm with rfl | rfl
    · rw [hcfgA] at hcm
      injection hcm with hc
      subst hc
      exact hkeyA
    · rw [hcfgB] at hcm
      injection hcm with hc
      subst hc
      exact hkeyB
  rw [hnoop]
  have hev := ensureLocations_trace_mem [A, B] settings
    ({ offers :=
        [{ sku := scopedSku draft.sku A, marketplaceId := A,
           offerId := R0.nextOfferId, listingId := some R0.nextListingId },
         { sku := scopedSku draft.sku B, marketplaceId := B,
           offerId := R0.nextOfferId + 1,
           listingId := some (R0.nextListingId + 1) }],
       locations := R0.locations, nextOfferId := R0.nextOfferId + 1 + 1,
       nextListingId := R0.nextListingId + 1 + 1 } : Remote)
    [CallEv.inventoryPut (scopedSku draft.sku A) A,
     CallEv.inventoryPut (scopedSku draft.sku B) B]
  rw [hE2] at hev
  generalize hT2g : E2.2.2 = T2
  rw [hT2g] at hev
  -- call 2, step A: the query returns the published offer, short-circuit
  have hp2A := processMp_published d1 settings custom_prices env
    { results := [],
      remote :=
        { offers :=
            [{ sku := scopedSku draft.sku A, marketplaceId := A,
               offerId := R0.nextOfferId, listingId := some R0.nextListingId },
             { sku := scopedSku draft.sku B, marketplaceId := B,
               offerId := R0.nextOfferId + 1,
               listingId := some (R0.nextListingId + 1) }],
          locations := R0.locations, nextOfferId := R0.nextOfferId + 1 + 1,
          nextListingId := R0.nextListingId + 1 + 1 },
      cache := cache, trace := T2 } A cfgA (leadingDigits cA)
    ({ sku := scopedSku draft.sku A, marketplaceId := A,
       offerId := R0.nextOfferId, listingId := some R0.nextListingId }
      : RemoteOffer)
    R0.nextListingId rfl hcfgA
    (resolve_user_set env.taxonomy cache d1 A cA hcbmA hcatAne hcatAld)
    htrA.1 htrA.2.1 htrA.2.2.1
    (show ((([({ sku := scopedSku draft.sku A, marketplaceId := A,
                 offerId := R0.nextOfferId,
                 listingId := some R0.nextListingId } : RemoteOffer),
              ({ sku := scopedSku draft.sku B, marketplaceId := B,
                 offerId := R0.nextOfferId + 1,
                 listingId := some (R0.nextListingId + 1) } : RemoteOffer)]).filter
        (fun (o : RemoteOffer) => o.sku == scopedSku d1.sku A)).find?
        (fun (o : RemoteOffer) => o.marketplaceId == A)) =
        some ({ sku := scopedSku draft.sku A, marketplaceId := A,
                offerId := R0.nextOfferId,
                listingId := some R0.nextListingId } : RemoteOffer) by
      rw [hsku1]
      simp [hskuAB])
    rfl
  dsimp only at hp2A
  rw [aset_nil] at hp2A
  rw [hp2A]
  -- call 2, step B: same short-circuit on the published B offer
  have hp2B := processMp_published d1 settings custom_prices env
    { results :=
        [(A, { success := true, offer_id := some R0.nextOfferId,
               listing_id := some R0.nextListingId,
               price := some (computePrice d1 custom_prices A,
                 cfgA.currency),
               listing_url := some (listingUrl env.use_sandbox A
                 R0.nextListingId),
               note := some "Already published (skipped)" })],
      remote :=
        { offers :=
            [{ sku := scopedSku draft.sku A, marketplaceId := A,
               offerId := R0.nextOfferId, listingId := some R0.nextListingId },
             { sku := scopedSku draft.sku B, marketplaceId := B,
               offerId := R0.nextOfferId + 1,
               listingId := some (R0.nextListingId + 1) }],
          locations := R0.locations, nextOfferId := R0.nextOfferId + 1 + 1,
          nextListingId := R0.nextListingId + 1 + 1 },
      cache := cache,
      trace := T2 ++ [CallEv.offersGet (scopedSku d1.sku A) A] }
    B cfgB (leadingDigits cB)
    ({ sku := scopedSku draft.sku B, marketplaceId := B,
       offerId := R0.nextOfferId + 1,
       listingId := some (R0.nextListingId + 1) } : RemoteOffer)
    (R0.nextListingId + 1) rfl hcfgB
    (resolve_user_set env.taxonomy cache d1 B cB hcbmB hcatBne hcatBld)
    htrB.1 htrB.2.1 htrB.2.2.1
    (show ((([({ sku := scopedSku draft.sku A, marketplaceId := A,
                 offerId := R0.nextOfferId,
                 listingId := some R0.nextListingId } : RemoteOffer),
              ({ sku := scopedSku draft.sku B, marketplaceId := B,
                 offerId := R0.nextOfferId + 1,
                 listingId := some (R0.nextListingId + 1) } : RemoteOffer)]).filter
        (fun (o : RemoteOffer) => o.sku == scopedSku d1.sku B)).find?
        (fun (o : RemoteOffer) => o.marketplaceId == B)) =
        some ({ sku := scopedSku draft.sku B, marketplaceId := B,
                offerId := R0.nextOfferId + 1,
                listingId := some (R0.nextListingId + 1) } : RemoteOffer) by
      rw [hsku1]
      simp [hskuBA])
    rfl
  dsimp only at hp2B
  rw [aset_miss _ _ _ (by rw [alookup_cons_ne A B _ _ hABbeq]; rfl),
    List.singleton_append] at hp2B
  rw [hp2B]
  -- collapse call 2 to its literal result
  dsimp only
  simp only [Bool.false_eq_true, if_false, List.filter_cons, List.filter_nil,
    eq_self_iff_true, if_true, List.map_cons, List.map_nil]
  refine ⟨trivial, trivial, rfl, trivial, ?_⟩
  intro c hc
  rcases List.mem_append.mp hc with h1 | h2
  · rcases List.mem_append.mp h1 with h3 | h4
    · rcases hev c h3 with hin | ⟨k, rfl⟩ | ⟨k, rfl⟩
      · simp only [List.mem_cons, List.mem_singleton, List.not_mem_nil,
          or_false] at hin
        rcases hin with rfl | rfl
        · rfl
        · rfl
      · rfl
      · rfl
    · obtain rfl := List.mem_singleton.mp h4
      rfl
  · obtain rfl := List.mem_singleton.mp h2
    rfl

/-- Environment where every publish attempt is accepted immediately. -/
def c2Env : Env := {}

/-- Witness for `publish_twice_idempotent` at a concrete two-marketplace
scenario. -/
theorem publish_twice_idempotent_witness :
    (let out1 := publish_draft_multi_marketplace (some c3Draft)
      ["EBAY_DE", "EBAY_US"] [] c3Settings c2Env {} []
     let out2 := publish_draft_multi_marketplace (some out1.draft)
      ["EBAY_DE", "EBAY_US"] [] c3Settings c2Env out1.remote out1.cache
     out2.draft.marketplace_listings = out1.draft.marketplace_listings ∧
     out2.remote = out1.remote ∧
     akeys out1.draft.marketplace_listings = ["EBAY_DE", "EBAY_US"] ∧
     out1.draft.status = "PUBLISHED" ∧
     (∀ c ∈ out2.trace, createsOfferOrListing c = false)) :=
  publish_twice_idempotent "EBAY_DE" "EBAY_US" c3Draft [] c3Settings c2Env
    {} [] "159043" "63632 - Wheels" _ _ (by decide) rfl rfl rfl rfl rfl rfl
    rfl rfl rfl rfl rfl rfl rfl rfl rfl rfl rfl rfl

end SkateBay
